import Mathlib

/-!
# The Vulkan swapper (`ext/vulkan/vkswapper.c`)

A shallow embedding of the presentation-chain manager: surface property
retrieval, swap chain allocation, the staging upload and the per-frame
acquire / transfer / submit / present sequence with its stale-chain recovery.

Conventions of the embedding

* Handles and pointers are natural numbers, `0` being `NULL` / `VK_NULL_HANDLE`.
* `guint32` values are natural numbers, reduced modulo `2 ^ 32` where the C
  arithmetic can wrap; `(guint32) -1` is `4294967295`.
* Everything the code obtains from Vulkan, the window or the device is read
  from a `Platform`: for every entry point and every `k`, the result of the
  `k`-th call of that entry point, together with the values it writes.
* The `World` records every call the code makes (in order), the objects that
  are currently allocated, and the supply of fresh handles.
* A C function `gboolean f (..., out, GError ** error)` becomes a function to
  `Res`: the returned flag, the out value, the error that was set (if any) and
  the state after the call, or `abort` when the process dies (failed
  `g_assert`, dereference of a `NULL` pointer).
-/

namespace VkSwapper

/-! ## Constants of the Vulkan and GStreamer headers -/

def VK_NULL_HANDLE : Nat := 0
def VK_ERROR_INITIALIZATION_FAILED : Int := -3
def VK_ERROR_DEVICE_LOST : Int := -4
def VK_ERROR_MEMORY_MAP_FAILED : Int := -5
def VK_ERROR_SURFACE_LOST_KHR : Int := -1000000000
def VK_ERROR_OUT_OF_DATE_KHR : Int := -1000001004

def VK_PRESENT_MODE_IMMEDIATE_KHR : Nat := 0
def VK_PRESENT_MODE_MAILBOX_KHR : Nat := 1
def VK_PRESENT_MODE_FIFO_KHR : Nat := 2

def VK_QUEUE_GRAPHICS_BIT : Nat := 1
def VK_SURFACE_TRANSFORM_NONE_BIT_KHR : Nat := 1
def VK_IMAGE_USAGE_TRANSFER_SRC_BIT : Nat := 1
def VK_IMAGE_USAGE_TRANSFER_DST_BIT : Nat := 2
def VK_IMAGE_USAGE_COLOR_ATTACHMENT_BIT : Nat := 16
def VK_COLORSPACE_SRGB_NONLINEAR_KHR : Nat := 0

def VK_IMAGE_LAYOUT_COLOR_ATTACHMENT_OPTIMAL : Nat := 2
def VK_IMAGE_LAYOUT_TRANSFER_SRC_OPTIMAL : Nat := 6
def VK_IMAGE_LAYOUT_TRANSFER_DST_OPTIMAL : Nat := 7
def VK_IMAGE_LAYOUT_PRESENT_SRC_KHR : Nat := 1000001002

def VK_FORMAT_UNDEFINED : Nat := 0
def VK_FORMAT_R8G8B8_UNORM : Nat := 23
def VK_FORMAT_B8G8R8_UNORM : Nat := 30
def VK_FORMAT_R8G8B8A8_UNORM : Nat := 37
def VK_FORMAT_B8G8R8A8_UNORM : Nat := 44

def GST_VIDEO_FORMAT_UNKNOWN : Nat := 0
def GST_VIDEO_FORMAT_RGBA : Nat := 11
def GST_VIDEO_FORMAT_BGRA : Nat := 12
def GST_VIDEO_FORMAT_RGB : Nat := 15
def GST_VIDEO_FORMAT_BGR : Nat := 16

/-- The value of `(guint32) -1`. -/
def G_MAXUINT32 : Nat := 4294967295

/-! ## Data model -/

/-- A `GError`: the code and the message given to `g_set_error`. -/
structure GError where
  code : Int
  message : String
  deriving DecidableEq

structure VkExtent2D where
  width : Nat
  height : Nat
  deriving DecidableEq

structure VkSurfaceCapabilitiesKHR where
  minImageCount : Nat
  maxImageCount : Nat
  currentExtent : VkExtent2D
  supportedTransforms : Nat
  currentTransform : Nat
  supportedUsageFlags : Nat
  deriving DecidableEq

structure VkSurfaceFormatKHR where
  format : Nat
  colorSpace : Nat
  deriving DecidableEq

structure VkSubresourceLayout where
  offset : Nat
  size : Nat
  rowPitch : Nat
  deriving DecidableEq

/-- The part of a `GstVideoInfo` the swapper reads. -/
structure GstVideoInfo where
  format : Nat
  width : Nat
  height : Nat
  deriving DecidableEq

/-- The first plane of a mapped `GstVideoFrame`: `GST_VIDEO_FRAME_COMP_WIDTH`,
`GST_VIDEO_FRAME_COMP_HEIGHT`, `GST_VIDEO_FRAME_PLANE_STRIDE` of plane 0 and
the bytes at `data[0]`. -/
structure GstVideoFrame where
  width : Nat
  height : Nat
  stride : Nat
  data : Nat → Nat

/-- A `GstVulkanImageMemory *`: `mem` is the address of the memory object
(`0` for a `NULL` entry), `image` its `VkImage`, the rest its `create_info`. -/
structure GstVulkanImageMemory where
  mem : Nat
  image : Nat
  format : Nat
  width : Nat
  height : Nat
  deriving DecidableEq

/-- The fields of `GstVulkanDevice` read by the swapper; `queue_family_props`
holds the `queueFlags` of each family. -/
structure GstVulkanDevice where
  n_queues : Nat
  queue_family_props : List Nat
  queue_family_id : Nat
  deriving DecidableEq

/-- The instance structure `GstVulkanSwapper`. -/
structure GstVulkanSwapper where
  device : GstVulkanDevice
  surface : Nat
  queue : Nat
  surf_props : VkSurfaceCapabilitiesKHR
  surf_formats : Option (List VkSurfaceFormatKHR)
  n_surf_formats : Nat
  surf_present_modes : List Nat
  n_surf_present_modes : Nat
  swap_chain : Nat
  swap_chain_images : Option (List GstVulkanImageMemory)
  n_swap_chain_images : Nat
  v_info : GstVideoInfo
  current_buffer : Nat
  to_quit : Bool
  deriving DecidableEq

/-- The local `struct cmd_data`; `notify` tells whether the destroy notify
(`gst_memory_unref`) is set. -/
structure cmd_data where
  cmd : Nat
  fence : Nat
  notify : Bool
  data : Nat
  deriving DecidableEq

/-! ## The platform and the world -/

/-- The entry points the swapper calls. -/
inductive Api where
  | gst_vulkan_window_get_surface
  | gst_vulkan_device_get_queue
  | GetPhysicalDeviceSurfaceCapabilitiesKHR
  | GetPhysicalDeviceSurfaceFormatsKHR
  | GetPhysicalDeviceSurfacePresentModesKHR
  | CreateSwapchainKHR
  | DestroySwapchainKHR
  | GetSwapchainImagesKHR
  | gst_vulkan_image_memory_wrapped
  | gst_vulkan_device_create_cmd_buffer
  | vkCreateFence
  | vkBeginCommandBuffer
  | vkCmdPipelineBarrier
  | vkEndCommandBuffer
  | vkQueueSubmit
  | vkWaitForFences
  | vkFreeCommandBuffers
  | vkDestroyFence
  | gst_memory_unref
  | gst_video_frame_map
  | gst_video_frame_unmap
  | gst_vulkan_image_memory_alloc
  | gst_memory_map
  | gst_memory_unmap
  | vkGetImageSubresourceLayout
  | vkCmdCopyImage
  | vkCreateSemaphore
  | vkDestroySemaphore
  | AcquireNextImageKHR
  | QueuePresentKHR
  deriving DecidableEq

/-- One recorded call: the entry point and its (numeric) arguments. -/
structure Call where
  api : Api
  args : List Nat
  deriving DecidableEq

/-- The kinds of object the swapper allocates. -/
inductive ResKind where
  | surface
  | queue
  | swapchain
  | chain_image
  | semaphore
  | cmd_buffer
  | fence
  | staging_image
  deriving DecidableEq

/-- What the platform answers. `result api k` is the `VkResult` of the `k`-th
call of `api` (counting from 0); for the helpers returning a `gboolean` or a
pointer a negative value stands for `FALSE` / `NULL`. The other fields are the
values written by the `k`-th call of the query they belong to. -/
structure Platform where
  result : Api → Nat → Int
  presentation_support : Nat → Bool
  surf_props : Nat → VkSurfaceCapabilitiesKHR
  surf_formats : Nat → List VkSurfaceFormatKHR
  surf_present_modes : Nat → List Nat
  swap_chain_images : Nat → List Nat
  swap_idx : Nat → Nat
  vframe : Nat → GstVideoFrame
  layout : Nat → VkSubresourceLayout

/-- The calls made so far, the objects currently allocated and the last
handle handed out. -/
structure World where
  trace : List Call
  live : List (ResKind × Nat)
  next : Nat
  deriving DecidableEq

/-- The swapper together with the world it runs in. -/
structure St where
  swapper : GstVulkanSwapper
  vk : World
  deriving DecidableEq

/-- The argument lists of the calls of `api` in a trace, in order. -/
def calls_of (api : Api) (trace : List Call) : List (List Nat) :=
  (trace.filter fun c => c.api = api).map Call.args

/-- Number of calls of `api` made so far. -/
def St.count (st : St) (api : Api) : Nat :=
  (calls_of api st.vk.trace).length

/-- The result the platform gives to the next call of `api`. -/
def St.result (p : Platform) (st : St) (api : Api) : Int :=
  p.result api (st.count api)

/-- Record a call. -/
def St.log (st : St) (api : Api) (args : List Nat) : St :=
  { st with vk := { st.vk with trace := st.vk.trace ++ [⟨api, args⟩] } }

/-- The handle the next allocation returns. -/
def St.fresh (st : St) : Nat := st.vk.next + 1

/-- Allocate an object of kind `k` under the handle `st.fresh`. -/
def St.create (st : St) (k : ResKind) : St :=
  { st with vk := { st.vk with live := st.vk.live ++ [(k, st.vk.next + 1)], next := st.vk.next + 1 } }

/-- Release the object with handle `h`. -/
def St.release (st : St) (h : Nat) : St :=
  { st with vk := { st.vk with live := st.vk.live.filter (fun r => r.2 != h) } }

/-- Result of a C function: it returned (`ok` is the `gboolean`, `out` the
out value, `error` what `*error` was set to) or the process aborted. -/
inductive Res (α : Type) where
  | ret (ok : Bool) (out : α) (error : Option GError) (st : St)
  | abort (st : St)
  deriving DecidableEq

/-- Result of a presentation call run with a bounded number of passes through
`reacquire:`; `out_of_fuel` means the bound was reached before the call
returned. -/
inductive Outcome where
  | returned (ok : Bool) (error : Option GError) (st : St)
  | aborted (st : St)
  | out_of_fuel (st : St)
  deriving DecidableEq

/-- The state in which a presentation call ended. -/
def Outcome.st : Outcome → St
  | .returned _ _ st => st
  | .aborted st => st
  | .out_of_fuel st => st

/-- Modelled from the spec: `gst_vulkan_error_to_g_error` (vkerror.c is not
part of the sources). A negative `VkResult` is wrapped, with the name of the
failing operation, into the error returned to the caller; any other result
sets no error. The C function returns `err` itself, so the callers' test
`< 0` is `isSome` of this value. -/
def gst_vulkan_error_to_g_error (err : Int) (op : String) : Option GError :=
  if err < 0 then some ⟨err, op⟩ else none

/-! ## Pixel formats -/

def _vk_format_to_video_format (format : Nat) : Nat :=
  if format = VK_FORMAT_R8G8B8A8_UNORM then GST_VIDEO_FORMAT_RGBA
  else if format = VK_FORMAT_R8G8B8_UNORM then GST_VIDEO_FORMAT_RGB
  else if format = VK_FORMAT_B8G8R8A8_UNORM then GST_VIDEO_FORMAT_BGRA
  else if format = VK_FORMAT_B8G8R8_UNORM then GST_VIDEO_FORMAT_BGR
  else GST_VIDEO_FORMAT_UNKNOWN

def _vk_format_from_video_format (v_format : Nat) : Nat :=
  if v_format = GST_VIDEO_FORMAT_RGBA then VK_FORMAT_R8G8B8A8_UNORM
  else if v_format = GST_VIDEO_FORMAT_RGB then VK_FORMAT_R8G8B8_UNORM
  else if v_format = GST_VIDEO_FORMAT_BGRA then VK_FORMAT_B8G8R8A8_UNORM
  else if v_format = GST_VIDEO_FORMAT_BGR then VK_FORMAT_B8G8R8_UNORM
  else VK_FORMAT_UNDEFINED

def _vk_color_space_from_video_info (_v_info : GstVideoInfo) : Nat :=
  VK_COLORSPACE_SRGB_NONLINEAR_KHR

/-! ## Surface properties -/

/-- Update the swapper part of the state. -/
def St.set (st : St) (f : GstVulkanSwapper → GstVulkanSwapper) : St :=
  { st with swapper := f st.swapper }

def _vulkan_swapper_ensure_surface (p : Platform) (st : St) : Res Unit :=
  if st.swapper.surface = 0 then
    let r := st.result p .gst_vulkan_window_get_surface
    let st1 := st.log .gst_vulkan_window_get_surface []
    if r < 0 then
      .ret false () (some ⟨r, "gst_vulkan_window_get_surface"⟩) st1
    else
      let h := st1.fresh
      .ret true () none ((st1.create .surface).set fun s => { s with surface := h })
  else
    .ret true () none st

/-- The loop over the queue families of
`_vulkan_swapper_retrieve_surface_properties`: `k` iterations remain, the
index of the current one is `n_queues - k`. Returns
`(graphics_queue, present_queue)`; both start as `(guint32) -1`. -/
def queue_family_loop (queue_family_props : List Nat) (supports : Nat → Bool) (n_queues : Nat) :
    Nat → Nat → Nat → Nat × Nat
  | 0, graphics_queue, present_queue => (graphics_queue, present_queue)
  | k + 1, graphics_queue, present_queue =>
    let i := n_queues - (k + 1)
    let supports_present := supports i
    if queue_family_props.getD i 0 &&& VK_QUEUE_GRAPHICS_BIT ≠ 0 then
      if supports_present then
        (i, i)
      else
        queue_family_loop queue_family_props supports n_queues k
          (if graphics_queue ≠ G_MAXUINT32 then i else graphics_queue) present_queue
    else if supports_present then
      queue_family_loop queue_family_props supports n_queues k graphics_queue
        (if present_queue ≠ G_MAXUINT32 then i else present_queue)
    else
      queue_family_loop queue_family_props supports n_queues k graphics_queue present_queue

/-- The queue indices found for a device: the loop run over all families. -/
def find_queues (dev : GstVulkanDevice) (supports : Nat → Bool) : Nat × Nat :=
  queue_family_loop dev.queue_family_props supports dev.n_queues dev.n_queues
    G_MAXUINT32 G_MAXUINT32

/-- The second half of `_vulkan_swapper_retrieve_surface_properties`: the
two calls of `GetPhysicalDeviceSurfacePresentModesKHR`. -/
def retrieve_present_modes (p : Platform) (st : St) : Res Unit :=
  let k1 := st.count .GetPhysicalDeviceSurfacePresentModesKHR
  let st1 := st.log .GetPhysicalDeviceSurfacePresentModesKHR [0]
  match gst_vulkan_error_to_g_error (p.result .GetPhysicalDeviceSurfacePresentModesKHR k1)
      "GetPhysicalDeviceSurfacePresentModesKHR" with
  | some e => .ret false () (some e) st1
  | none =>
    let n := (p.surf_present_modes k1).length
    let st2 := st1.set fun s =>
      { s with n_surf_present_modes := n, surf_present_modes := List.replicate n 0 }
    let k2 := st2.count .GetPhysicalDeviceSurfacePresentModesKHR
    let st3 := st2.log .GetPhysicalDeviceSurfacePresentModesKHR [n]
    match gst_vulkan_error_to_g_error (p.result .GetPhysicalDeviceSurfacePresentModesKHR k2)
        "GetPhysicalDeviceSurfacePresentModesKHR" with
    | some e => .ret false () (some e) st3
    | none =>
      let modes := (p.surf_present_modes k2).take n
      .ret true () none (st3.set fun s =>
        { s with n_surf_present_modes := modes.length, surf_present_modes := modes })

/-- The middle of `_vulkan_swapper_retrieve_surface_properties`: the
capabilities and the two calls of `GetPhysicalDeviceSurfaceFormatsKHR`. The
array is allocated with `g_new0`, which returns `NULL` for zero elements, so
`surf_formats` stays `NULL` when the platform reports no format. -/
def retrieve_formats (p : Platform) (st : St) : Res Unit :=
  let k0 := st.count .GetPhysicalDeviceSurfaceCapabilitiesKHR
  let st0 := st.log .GetPhysicalDeviceSurfaceCapabilitiesKHR [st.swapper.surface]
  match gst_vulkan_error_to_g_error (p.result .GetPhysicalDeviceSurfaceCapabilitiesKHR k0)
      "GetPhysicalDeviceSurfaceCapabilitiesKHR" with
  | some e => .ret false () (some e) st0
  | none =>
    let sta := st0.set fun s => { s with surf_props := p.surf_props k0 }
    let k1 := sta.count .GetPhysicalDeviceSurfaceFormatsKHR
    let st1 := sta.log .GetPhysicalDeviceSurfaceFormatsKHR [0]
    match gst_vulkan_error_to_g_error (p.result .GetPhysicalDeviceSurfaceFormatsKHR k1)
        "GetPhysicalDeviceSurfaceFormatsKHR" with
    | some e => .ret false () (some e) st1
    | none =>
      let n := (p.surf_formats k1).length
      let st2 := st1.set fun s =>
        { s with n_surf_formats := n,
                 surf_formats := if n = 0 then none else some (List.replicate n ⟨0, 0⟩) }
      let k2 := st2.count .GetPhysicalDeviceSurfaceFormatsKHR
      let st3 := st2.log .GetPhysicalDeviceSurfaceFormatsKHR [n]
      match gst_vulkan_error_to_g_error (p.result .GetPhysicalDeviceSurfaceFormatsKHR k2)
          "GetPhysicalDeviceSurfaceFormatsKHR" with
      | some e => .ret false () (some e) st3
      | none =>
        let formats := (p.surf_formats k2).take n
        retrieve_present_modes p (st3.set fun s =>
          { s with n_surf_formats := formats.length,
                   surf_formats := if n = 0 then none else some formats })

def _vulkan_swapper_retrieve_surface_properties (p : Platform) (st : St) : Res Unit :=
  if st.swapper.surf_formats.isSome then
    .ret true () none st
  else
    match _vulkan_swapper_ensure_surface p st with
    | .abort s => .abort s
    | .ret false _ e s => .ret false () e s
    | .ret true _ _ st1 =>
      let q := find_queues st1.swapper.device p.presentation_support
      let graphics_queue := q.1
      let present_queue := q.2
      if graphics_queue ≠ present_queue then
        .ret false () (some ⟨VK_ERROR_INITIALIZATION_FAILED,
          "Failed to find a compatible present/graphics queue"⟩) st1
      else
        let r := st1.result p .gst_vulkan_device_get_queue
        let st2 := st1.log .gst_vulkan_device_get_queue
          [st1.swapper.device.queue_family_id, graphics_queue]
        if r < 0 then
          .ret false () (some ⟨r, "gst_vulkan_device_get_queue"⟩)
            (st2.set fun s => { s with queue := 0 })
        else
          let h := st2.fresh
          retrieve_formats p ((st2.create .queue).set fun s => { s with queue := h })

/-! ## Swap chain allocation -/

/-- A failing helper call: `FALSE` with the platform's code and the name of
the operation. -/
def op_error (r : Int) (op : String) : Option GError := some ⟨r, op⟩

def _swapper_set_image_layout_with_cmd (st : St) (cmd : Nat) (image : GstVulkanImageMemory)
    (new_image_layout : Nat) : St :=
  st.log .vkCmdPipelineBarrier [cmd, image.image, new_image_layout]

/-- The out value is the fence; it keeps its old value when creation fails. -/
def _new_fence (p : Platform) (st : St) (fence : Nat) : Res Nat :=
  let err := st.result p .vkCreateFence
  let st1 := st.log .vkCreateFence []
  match gst_vulkan_error_to_g_error err "vkCreateFence" with
  | some e => .ret false fence (some e) st1
  | none => .ret true st1.fresh none (st1.create .fence)

/-- Modelled from the spec: `gst_vulkan_device_create_cmd_buffer` (the device
is an external collaborator providing command-buffer allocation). The out
value is the command buffer; it keeps its old value on failure. -/
def gst_vulkan_device_create_cmd_buffer (p : Platform) (st : St) (cmd : Nat) : Res Nat :=
  let r := st.result p .gst_vulkan_device_create_cmd_buffer
  let st1 := st.log .gst_vulkan_device_create_cmd_buffer []
  if r < 0 then
    .ret false cmd (op_error r "vkCreateCommandBuffer") st1
  else
    .ret true st1.fresh none (st1.create .cmd_buffer)

/-- A fallible Vulkan call that creates nothing: record it and wrap its
result. -/
def vk_call (p : Platform) (st : St) (api : Api) (args : List Nat) (op : String) :
    Option GError × St :=
  (gst_vulkan_error_to_g_error (st.result p api) op, st.log api args)

def _swapper_set_image_layout (p : Platform) (st : St) (image : GstVulkanImageMemory)
    (new_image_layout : Nat) : Res Unit :=
  match gst_vulkan_device_create_cmd_buffer p st 0 with
  | .abort s => .abort s
  | .ret false _ e s => .ret false () e s
  | .ret true cmd _ st1 =>
    match _new_fence p st1 0 with
    | .abort s => .abort s
    | .ret false _ e s => .ret false () e s
    | .ret true fence _ st2 =>
      match vk_call p st2 .vkBeginCommandBuffer [cmd] "vkBeginCommandBuffer" with
      | (some e, s) => .ret false () (some e) s
      | (none, st3) =>
        let st4 := _swapper_set_image_layout_with_cmd st3 cmd image new_image_layout
        match vk_call p st4 .vkEndCommandBuffer [cmd] "vkEndCommandBuffer" with
        | (some e, s) => .ret false () (some e) s
        | (none, st5) =>
          if st5.swapper.queue = 0 then
            .abort st5
          else
            match vk_call p st5 .vkQueueSubmit [st5.swapper.queue, cmd, fence] "vkQueueSubmit" with
            | (some e, s) => .ret false () (some e) s
            | (none, st6) =>
              match vk_call p st6 .vkWaitForFences [fence] "vkWaitForFences" with
              | (some e, s) => .ret false () (some e) s
              | (none, st7) =>
                let st8 := (st7.log .vkFreeCommandBuffers [cmd]).release cmd
                let st9 := (st8.log .vkDestroyFence [fence]).release fence
                .ret true () none st9

/-- The loop over the present modes in `_allocate_swapchain`: `k` iterations
remain, the index of the current one is `n - k`. -/
def present_mode_loop (surf_present_modes : List Nat) (n : Nat) : Nat → Nat → Nat
  | 0, present_mode => present_mode
  | k + 1, present_mode =>
    let i := n - (k + 1)
    if surf_present_modes.getD i 0 = VK_PRESENT_MODE_MAILBOX_KHR then
      VK_PRESENT_MODE_MAILBOX_KHR
    else if present_mode ≠ VK_PRESENT_MODE_MAILBOX_KHR ∧
        surf_present_modes.getD i 0 = VK_PRESENT_MODE_IMMEDIATE_KHR then
      present_mode_loop surf_present_modes n k VK_PRESENT_MODE_IMMEDIATE_KHR
    else
      present_mode_loop surf_present_modes n k present_mode

/-- The present mode `_allocate_swapchain` puts into the create info. -/
def select_present_mode (s : GstVulkanSwapper) : Nat :=
  present_mode_loop s.surf_present_modes s.n_surf_present_modes s.n_surf_present_modes
    VK_PRESENT_MODE_FIFO_KHR

/-- The `n_images_wanted` of `_allocate_swapchain` (`guint32` arithmetic). -/
def n_images_wanted (surf_props : VkSurfaceCapabilitiesKHR) : Nat :=
  let n := (surf_props.minImageCount + 1) % 2 ^ 32
  if surf_props.maxImageCount > 0 ∧ n > surf_props.maxImageCount then
    surf_props.maxImageCount
  else
    n

/-- The `swapchain_dims` of `_allocate_swapchain`. -/
def swapchain_dims (surf_props : VkSurfaceCapabilitiesKHR) : VkExtent2D :=
  if surf_props.currentExtent.width = G_MAXUINT32 then ⟨320, 240⟩
  else surf_props.currentExtent

/-- The `preTransform` of `_allocate_swapchain`. -/
def pre_transform (surf_props : VkSurfaceCapabilitiesKHR) : Nat :=
  if surf_props.supportedTransforms &&& VK_SURFACE_TRANSFORM_NONE_BIT_KHR ≠ 0 then
    VK_SURFACE_TRANSFORM_NONE_BIT_KHR
  else
    surf_props.currentTransform

/-- A `NULL` entry of the image array. -/
def null_image : GstVulkanImageMemory := ⟨0, 0, 0, 0, 0⟩

/-- Store `m` at index `i` of the swapper's image array. -/
def set_swap_chain_image (s : GstVulkanSwapper) (i : Nat) (m : GstVulkanImageMemory) :
    GstVulkanSwapper :=
  { s with swap_chain_images := s.swap_chain_images.map fun a => a.set i m }

/-- The loop of `_allocate_swapchain` wrapping the chain's images, starting
at index `i` with the `VkImage`s that remain. -/
def wrap_images_loop (p : Platform) (format width height usage : Nat) :
    List Nat → Nat → St → Res Unit
  | [], _, st => .ret true () none st
  | img :: rest, i, st =>
    let st1 := st.log .gst_vulkan_image_memory_wrapped [img, format, width, height, usage]
    let m : GstVulkanImageMemory := ⟨st1.fresh, img, format, width, height⟩
    let st2 := (st1.create .chain_image).set fun s => set_swap_chain_image s i m
    match _swapper_set_image_layout p st2 m VK_IMAGE_LAYOUT_COLOR_ATTACHMENT_OPTIMAL with
    | .abort s => .abort s
    | .ret false _ e s => .ret false () e s
    | .ret true _ _ st3 => wrap_images_loop p format width height usage rest (i + 1) st3

/-- The end of `_allocate_swapchain`, from the first call of
`GetSwapchainImagesKHR` on. -/
def allocate_images (p : Platform) (st : St) (format usage : Nat) (dims : VkExtent2D) :
    Res Unit :=
  let k1 := st.count .GetSwapchainImagesKHR
  let st1 := st.log .GetSwapchainImagesKHR [st.swapper.swap_chain, 0]
  match gst_vulkan_error_to_g_error (p.result .GetSwapchainImagesKHR k1)
      "vkGetSwapchainImagesKHR" with
  | some e => .ret false () (some e) st1
  | none =>
    let n := (p.swap_chain_images k1).length
    let st2 := st1.set fun s => { s with n_swap_chain_images := n }
    let k2 := st2.count .GetSwapchainImagesKHR
    let st3 := st2.log .GetSwapchainImagesKHR [st2.swapper.swap_chain, n]
    match gst_vulkan_error_to_g_error (p.result .GetSwapchainImagesKHR k2)
        "vkGetSwapchainImagesKHR" with
    | some e => .ret false () (some e) st3
    | none =>
      let swap_chain_images := (p.swap_chain_images k2).take n
      let st4 := st3.set fun s =>
        { s with n_swap_chain_images := swap_chain_images.length,
                 swap_chain_images := some (List.replicate swap_chain_images.length null_image) }
      wrap_images_loop p format dims.width dims.height usage swap_chain_images 0 st4

def _allocate_swapchain (p : Platform) (st : St) : Res Unit :=
  match _vulkan_swapper_ensure_surface p st with
  | .abort s => .abort s
  | .ret false _ e s => .ret false () e s
  | .ret true _ _ st1 =>
    let k := st1.count .GetPhysicalDeviceSurfaceCapabilitiesKHR
    let st2 := st1.log .GetPhysicalDeviceSurfaceCapabilitiesKHR [st1.swapper.surface]
    match gst_vulkan_error_to_g_error (p.result .GetPhysicalDeviceSurfaceCapabilitiesKHR k)
        "GetPhysicalDeviceSurfaceCapabilitiesKHR" with
    | some e => .ret false () (some e) st2
    | none =>
      let st3 := st2.set fun s => { s with surf_props := p.surf_props k }
      let surf_props := st3.swapper.surf_props
      let dims := swapchain_dims surf_props
      let present_mode := select_present_mode st3.swapper
      let n_images := n_images_wanted surf_props
      let preTransform := pre_transform surf_props
      let format := _vk_format_from_video_format st3.swapper.v_info.format
      let color_space := _vk_color_space_from_video_info st3.swapper.v_info
      let alpha_flags := 0
      if surf_props.supportedUsageFlags &&& VK_IMAGE_USAGE_TRANSFER_DST_BIT = 0 then
        .ret false () (some ⟨VK_ERROR_INITIALIZATION_FAILED,
          "Incorrect usage flags available for the swap images"⟩) st3
      else if surf_props.supportedUsageFlags &&& VK_IMAGE_USAGE_COLOR_ATTACHMENT_BIT = 0 then
        .ret false () (some ⟨VK_ERROR_INITIALIZATION_FAILED,
          "Incorrect usage flags available for the swap images"⟩) st3
      else
        let usage := VK_IMAGE_USAGE_TRANSFER_DST_BIT ||| VK_IMAGE_USAGE_COLOR_ATTACHMENT_BIT
        let old_swap_chain := st3.swapper.swap_chain
        let err := st3.result p .CreateSwapchainKHR
        let st4 := st3.log .CreateSwapchainKHR
          [old_swap_chain, n_images, format, color_space, dims.width, dims.height, usage,
            preTransform, present_mode, alpha_flags]
        match gst_vulkan_error_to_g_error err "vkCreateSwapchainKHR" with
        | some e => .ret false () (some e) st4
        | none =>
          let h := st4.fresh
          let st5 := (st4.create .swapchain).set fun s => { s with swap_chain := h }
          let st6 :=
            if old_swap_chain ≠ VK_NULL_HANDLE then
              (st5.log .DestroySwapchainKHR [old_swap_chain]).release old_swap_chain
            else st5
          allocate_images p st6 format usage dims

/-- The loop of `_swapchain_resize` releasing the old chain images: `k`
iterations remain, the index of the current one is `n - k`. -/
def unref_images_loop (images : List GstVulkanImageMemory) (n : Nat) : Nat → St → St
  | 0, st => st
  | k + 1, st =>
    let m := images.getD (n - (k + 1)) null_image
    if m.mem ≠ 0 then
      unref_images_loop images n k ((st.log .gst_memory_unref [m.mem]).release m.mem)
    else
      unref_images_loop images n k st

def _swapchain_resize (p : Platform) (st : St) : Res Unit :=
  let r :=
    if st.swapper.queue = 0 then _vulkan_swapper_retrieve_surface_properties p st
    else .ret true () none st
  match r with
  | .abort s => .abort s
  | .ret false _ e s => .ret false () e s
  | .ret true _ _ st1 =>
    let st2 :=
      match st1.swapper.swap_chain_images with
      | some images =>
        unref_images_loop images st1.swapper.n_swap_chain_images
          st1.swapper.n_swap_chain_images st1
      | none => st1
    _allocate_swapchain p st2

/-! ## Staging upload and frame transfer -/

/-- The C `memcpy (dest, src, n)` from the frame plane `frame` into the
staging mapping `mem`; `dest` and `src` are offsets into the two mappings. -/
def memcpy (mem : Nat → Nat) (dest : Nat) (frame : Nat → Nat) (src : Nat) (n : Nat) :
    Nat → Nat :=
  fun a => if dest ≤ a ∧ a < dest + n then frame (src + (a - dest)) else mem a

/-- The row loop of `_build_render_buffer_cmd`: `k` rows remain, `dest` is
the offset of the destination pointer from `staging_map_info.data`, `src`
the offset of the source pointer from `vframe.data[0]`. `none` is a failed
`g_assert`. -/
def copy_rows (frame : Nat → Nat) (stride : Nat) (layout : VkSubresourceLayout) :
    Nat → Nat → Nat → (Nat → Nat) → Option (Nat → Nat)
  | 0, _, _, mem => some mem
  | k + 1, dest, src, mem =>
    let mem1 := memcpy mem dest frame src stride
    let dest1 := dest + layout.rowPitch
    let src1 := src + stride
    if dest1 - 0 - layout.offset ≤ layout.size then
      copy_rows frame stride layout k dest1 src1 mem1
    else
      none

/-- The upload of a mapped frame into the staging mapping `mem`: the
pointer set-up followed by the row loop. -/
def upload_frame (vframe : GstVideoFrame) (layout : VkSubresourceLayout) (mem : Nat → Nat) :
    Option (Nat → Nat) :=
  copy_rows vframe.data vframe.stride layout vframe.height (0 + layout.offset) 0 mem

/-- The second half of `_build_render_buffer_cmd`: recording the command
buffer once the staging image is filled. -/
def record_render_buffer_cmd (p : Platform) (st : St) (swap_mem staging : GstVulkanImageMemory)
    (cmd : Nat) (cd : cmd_data) : Res cmd_data :=
  match vk_call p st .vkBeginCommandBuffer [cmd] "vkBeginCommandBuffer" with
  | (some e, s) => .ret false cd (some e) s
  | (none, st1) =>
    let st2 := _swapper_set_image_layout_with_cmd st1 cmd swap_mem
      VK_IMAGE_LAYOUT_TRANSFER_DST_OPTIMAL
    let st3 := _swapper_set_image_layout_with_cmd st2 cmd staging
      VK_IMAGE_LAYOUT_TRANSFER_SRC_OPTIMAL
    let wt := min swap_mem.width st3.swapper.v_info.width
    let ht := min swap_mem.height st3.swapper.v_info.height
    let st4 := st3.log .vkCmdCopyImage
      [cmd, staging.image, swap_mem.image, 0, 0, 0, 0, 0, 0, wt, ht, 1]
    let st5 := _swapper_set_image_layout_with_cmd st4 cmd staging
      VK_IMAGE_LAYOUT_PRESENT_SRC_KHR
    match vk_call p st5 .vkEndCommandBuffer [cmd] "vkEndCommandBuffer" with
    | (some e, s) => .ret false cd (some e) s
    | (none, st6) =>
      let cd1 : cmd_data := { cd with cmd := cmd, notify := true, data := staging.mem }
      match _new_fence p st6 cd1.fence with
      | .abort s => .abort s
      | .ret false fence e s => .ret false { cd1 with fence := fence } e s
      | .ret true fence _ s => .ret true { cd1 with fence := fence } none s

def _build_render_buffer_cmd (p : Platform) (st : St) (swap_idx buffer : Nat) (cd : cmd_data) :
    Res cmd_data :=
  if ¬ swap_idx < st.swapper.n_swap_chain_images then
    .ret false cd none st
  else
    match st.swapper.swap_chain_images with
    | none => .abort st
    | some images =>
      let swap_mem := images.getD swap_idx null_image
      match gst_vulkan_device_create_cmd_buffer p st 0 with
      | .abort s => .abort s
      | .ret false _ e s => .ret false cd e s
      | .ret true cmd _ st1 =>
        let kf := st1.count .gst_video_frame_map
        let st2 := st1.log .gst_video_frame_map [buffer]
        if p.result .gst_video_frame_map kf < 0 then
          .ret false cd (some ⟨VK_ERROR_MEMORY_MAP_FAILED, "Failed to map buffer"⟩) st2
        else if swap_mem.mem = 0 then
          .abort st2
        else
          let vframe := p.vframe kf
          let ra := st2.result p .gst_vulkan_image_memory_alloc
          let st3 := st2.log .gst_vulkan_image_memory_alloc
            [swap_mem.format, vframe.width, vframe.height]
          if ra < 0 then
            .ret false cd (some ⟨VK_ERROR_MEMORY_MAP_FAILED, "Failed to create staging memory"⟩)
              (st3.log .gst_video_frame_unmap [buffer])
          else
            let staging : GstVulkanImageMemory :=
              ⟨st3.fresh, st3.fresh, swap_mem.format, vframe.width, vframe.height⟩
            let st4 := st3.create .staging_image
            let rm := st4.result p .gst_memory_map
            let st5 := st4.log .gst_memory_map [staging.mem]
            if rm < 0 then
              .ret false cd (some ⟨VK_ERROR_MEMORY_MAP_FAILED, "Failed to map swap image"⟩)
                (((st5.log .gst_video_frame_unmap [buffer]).log
                  .gst_memory_unref [staging.mem]).release staging.mem)
            else
              let layout := p.layout (st5.count .vkGetImageSubresourceLayout)
              let st6 := st5.log .vkGetImageSubresourceLayout [staging.image]
              match upload_frame vframe layout (fun _ => 0) with
              | none => .abort st6
              | some _ =>
                let st7 := (st6.log .gst_video_frame_unmap [buffer]).log
                  .gst_memory_unmap [staging.mem]
                record_render_buffer_cmd p st7 swap_mem staging cmd cd

/-! ## The presentation call -/

/-- The four guarded releases shared by the success exit and the `error:`
label of `_render_buffer_unlocked`. -/
def release_attempt (st : St) (semaphore : Nat) (cd : cmd_data) : St :=
  let st1 :=
    if semaphore ≠ 0 then (st.log .vkDestroySemaphore [semaphore]).release semaphore else st
  let st2 :=
    if cd.cmd ≠ 0 then (st1.log .vkFreeCommandBuffers [cd.cmd]).release cd.cmd else st1
  let st3 :=
    if cd.fence ≠ 0 then (st2.log .vkDestroyFence [cd.fence]).release cd.fence else st2
  if cd.notify then (st3.log .gst_memory_unref [cd.data]).release cd.data else st3

/-- The `error:` label of `_render_buffer_unlocked`. -/
def error_exit (st : St) (semaphore : Nat) (cd : cmd_data) (e : Option GError) : Outcome :=
  .returned false e (release_attempt st semaphore cd)

/-- The releases of the out-of-date branch after `QueuePresentKHR`; the
handles in `cmd_data` are reset, `semaphore` keeps its value. -/
def discard_attempt (st : St) (semaphore : Nat) (cd : cmd_data) : St × cmd_data :=
  let st1 := (st.log .vkDestroySemaphore [semaphore]).release semaphore
  let st2 :=
    if cd.cmd ≠ 0 then (st1.log .vkFreeCommandBuffers [cd.cmd]).release cd.cmd else st1
  let st3 :=
    if cd.fence ≠ 0 then (st2.log .vkDestroyFence [cd.fence]).release cd.fence else st2
  let st4 := if cd.notify then (st3.log .gst_memory_unref [cd.data]).release cd.data else st3
  (st4, { cd with cmd := VK_NULL_HANDLE, fence := VK_NULL_HANDLE, notify := false })

/-- The body of `_render_buffer_unlocked` from the label `reacquire:` on;
`semaphore` and `cd` are the values of the locals when the label is reached,
every pass through the label uses one unit of fuel. -/
def reacquire (p : Platform) (buffer : Nat) : Nat → St → Nat → cmd_data → Outcome
  | 0, st, _, _ => .out_of_fuel st
  | fuel + 1, st, semaphore, cd =>
    let err := st.result p .vkCreateSemaphore
    let st1 := st.log .vkCreateSemaphore []
    match gst_vulkan_error_to_g_error err "vkCreateSemaphore" with
    | some e => error_exit st1 semaphore cd (some e)
    | none =>
      let semaphore := st1.fresh
      let st2 := st1.create .semaphore
      let ka := st2.count .AcquireNextImageKHR
      let err := p.result .AcquireNextImageKHR ka
      let swap_idx := p.swap_idx ka
      let st3 := st2.log .AcquireNextImageKHR [st2.swapper.swap_chain, semaphore]
      if err = VK_ERROR_OUT_OF_DATE_KHR then
        let st4 := (st3.log .vkDestroySemaphore [semaphore]).release semaphore
        match _swapchain_resize p st4 with
        | .abort s => .aborted s
        | .ret false _ e s => error_exit s semaphore cd e
        | .ret true _ _ s => reacquire p buffer fuel s semaphore cd
      else
        match gst_vulkan_error_to_g_error err "vkAcquireNextImageKHR" with
        | some e => error_exit st3 semaphore cd (some e)
        | none =>
          match _build_render_buffer_cmd p st3 swap_idx buffer cd with
          | .abort s => .aborted s
          | .ret false cd1 e s => error_exit s semaphore cd1 e
          | .ret true cd1 _ st5 =>
            if st5.swapper.queue = 0 then
              .aborted st5
            else
              match vk_call p st5 .vkQueueSubmit [st5.swapper.queue, cd1.cmd, cd1.fence]
                  "vkQueueSubmit" with
              | (some e, s) => .returned false (some e) s
              | (none, st6) =>
                let err := st6.result p .QueuePresentKHR
                let st7 := st6.log .QueuePresentKHR
                  [st6.swapper.queue, st6.swapper.swap_chain, swap_idx, semaphore]
                if err = VK_ERROR_OUT_OF_DATE_KHR then
                  match _swapchain_resize p st7 with
                  | .abort s => .aborted s
                  | .ret false _ e s => error_exit s semaphore cd1 e
                  | .ret true _ _ st8 =>
                    let d := discard_attempt st8 semaphore cd1
                    reacquire p buffer fuel d.1 semaphore d.2
                else
                  match gst_vulkan_error_to_g_error err "vkQueuePresentKHR" with
                  | some e => error_exit st7 semaphore cd1 (some e)
                  | none =>
                    match vk_call p st7 .vkWaitForFences [cd1.fence] "vkWaitForFences" with
                    | (some e, s) => error_exit s semaphore cd1 (some e)
                    | (none, st8) => .returned true none (release_attempt st8 semaphore cd1)

def _render_buffer_unlocked (p : Platform) (fuel : Nat) (st : St) (buffer : Nat) : Outcome :=
  let semaphore := 0
  let cd : cmd_data := ⟨0, 0, false, 0⟩
  if buffer = 0 then
    error_exit st semaphore cd (some ⟨VK_ERROR_INITIALIZATION_FAILED, "Invalid buffer"⟩)
  else if st.swapper.to_quit then
    error_exit st semaphore cd (some ⟨VK_ERROR_SURFACE_LOST_KHR, "Output window was closed"⟩)
  else
    reacquire p buffer fuel (st.set fun s => { s with current_buffer := buffer }) semaphore cd

/-- The render lock is taken around the call and released on return; the
embedding is sequential, so the call is the unlocked one. -/
def gst_vulkan_swapper_render_buffer (p : Platform) (fuel : Nat) (st : St) (buffer : Nat) :
    Outcome :=
  _render_buffer_unlocked p fuel st buffer

/-! ## Vocabulary of the statements -/

/-- Every call other than image acquisition and queue presentation succeeds,
whenever it is made. -/
def helpers_succeed (p : Platform) : Prop :=
  ∀ api k, api ≠ .AcquireNextImageKHR → api ≠ .QueuePresentKHR → 0 ≤ p.result api k

/-- The surface supports the two usages the swap chain images need, whenever
its capabilities are queried. -/
def usage_supported (p : Platform) : Prop :=
  ∀ k, (p.surf_props k).supportedUsageFlags &&& VK_IMAGE_USAGE_TRANSFER_DST_BIT ≠ 0 ∧
    (p.surf_props k).supportedUsageFlags &&& VK_IMAGE_USAGE_COLOR_ATTACHMENT_BIT ≠ 0

/-- Every mapped frame fits the staging layout the platform reports, so the
assertion in the row loop holds. -/
def rows_fit (p : Platform) : Prop :=
  ∀ k1 k2, (p.vframe k1).height * (p.layout k2).rowPitch ≤ (p.layout k2).size

/-- The entry points whose calls the statements about a presentation call
follow through the helpers. -/
def observed : List Api :=
  [.AcquireNextImageKHR, .QueuePresentKHR, .gst_video_frame_map, .vkCmdCopyImage,
    .CreateSwapchainKHR, .vkCreateSemaphore, .vkDestroySemaphore]

/-- The kinds of object that belong to one presentation attempt. -/
def per_attempt (k : ResKind) : Prop :=
  k = .semaphore ∨ k = .cmd_buffer ∨ k = .fence ∨ k = .staging_image

/-- Every per-attempt object allocated in `st'` was already allocated in
`st`. -/
def live_sub (st' st : St) : Prop :=
  ∀ r ∈ st'.vk.live, per_attempt r.1 → r ∈ st.vk.live

/-- The calls of the observed entry points are the same in both states. -/
def same_calls (st' st : St) : Prop :=
  ∀ api ∈ observed, calls_of api st'.vk.trace = calls_of api st.vk.trace

/-- What a helper that ran to success leaves behind: no per-attempt object,
no call of an observed entry point, and it only took fresh handles. -/
def helper_step (st st' : St) : Prop :=
  live_sub st' st ∧ same_calls st' st ∧ st.vk.next ≤ st'.vk.next

/-- What a successful rebuild of the chain leaves behind: the queue, the
video info, the retained buffer and the quit flag are kept, the chain handle
is fresh, every image of the new array is wrapped, and the only observed
call is one `CreateSwapchainKHR` whose first argument is the old chain. -/
def rebuilt (p : Platform) (st st' : St) : Prop :=
  st'.swapper.queue = st.swapper.queue ∧
  st'.swapper.v_info = st.swapper.v_info ∧
  st'.swapper.current_buffer = st.swapper.current_buffer ∧
  st'.swapper.to_quit = st.swapper.to_quit ∧
  st.vk.next < st'.swapper.swap_chain ∧
  st.vk.next ≤ st'.vk.next ∧
  (∃ arr, st'.swapper.swap_chain_images = some arr ∧
    st'.swapper.n_swap_chain_images = arr.length ∧
    (∀ i, (∀ k, i < (p.swap_chain_images k).length) → i < arr.length) ∧
    (∀ j, j < arr.length → (arr.getD j null_image).mem ≠ 0)) ∧
  live_sub st' st ∧
  (∀ api ∈ observed, api ≠ .CreateSwapchainKHR →
    calls_of api st'.vk.trace = calls_of api st.vk.trace) ∧
  (∃ args, calls_of .CreateSwapchainKHR st'.vk.trace =
    calls_of .CreateSwapchainKHR st.vk.trace ++ [st.swapper.swap_chain :: args])

/-! ## Concrete presenters and platforms -/

/-- Capabilities of a 4x4 surface taking two or three images, with the
transfer-destination and color-attachment usages. -/
def sample_caps : VkSurfaceCapabilitiesKHR := ⟨2, 3, ⟨4, 4⟩, 1, 1, 18⟩

/-- A swapper after a successful `gst_vulkan_swapper_set_caps`: surface 1,
queue 2, chain 3 with two wrapped BGRA images. -/
def configured_swapper : GstVulkanSwapper :=
  { device := ⟨1, [1], 0⟩, surface := 1, queue := 2, surf_props := sample_caps,
    surf_formats := some [⟨44, 0⟩], n_surf_formats := 1,
    surf_present_modes := [2, 0, 1], n_surf_present_modes := 3,
    swap_chain := 3, swap_chain_images := some [⟨4, 100, 44, 4, 4⟩, ⟨5, 101, 44, 4, 4⟩],
    n_swap_chain_images := 2, v_info := ⟨12, 4, 4⟩, current_buffer := 0, to_quit := false }

/-- The configured swapper in a world where exactly its objects exist. -/
def configured : St :=
  ⟨configured_swapper,
    ⟨[], [(.surface, 1), (.queue, 2), (.swapchain, 3), (.chain_image, 4), (.chain_image, 5)], 5⟩⟩

/-- The configured swapper after the window was closed. -/
def closed : St :=
  configured.set fun s => { s with to_quit := true }

/-- A platform answering with the given results; it hands out image index 1,
two images per chain, 4x4 frames of stride 16 and a staging layout of pitch
16 and size 64. -/
def sample_platform (result : Api → Nat → Int) : Platform :=
  { result := result, presentation_support := fun _ => true, surf_props := fun _ => sample_caps,
    surf_formats := fun _ => [⟨44, 0⟩], surf_present_modes := fun _ => [2],
    swap_chain_images := fun _ => [100, 101], swap_idx := fun _ => 1,
    vframe := fun _ => ⟨4, 4, 16, fun _ => 7⟩, layout := fun _ => ⟨0, 64, 16⟩ }

/-- Every call succeeds. -/
def steady : Platform := sample_platform fun _ _ => 0

/-- The first `vkQueueSubmit` fails with `VK_ERROR_DEVICE_LOST`; every other
call succeeds. -/
def submit_fails : Platform :=
  sample_platform fun api k => if api = .vkQueueSubmit ∧ k = 0 then VK_ERROR_DEVICE_LOST else 0

/-- The first `AcquireNextImageKHR` reports out-of-date; every other call
succeeds. -/
def stale_acquire : Platform :=
  sample_platform fun api k =>
    if api = .AcquireNextImageKHR ∧ k = 0 then VK_ERROR_OUT_OF_DATE_KHR else 0

/-- The first `QueuePresentKHR` reports out-of-date; every other call
succeeds. -/
def stale_present : Platform :=
  sample_platform fun api k =>
    if api = .QueuePresentKHR ∧ k = 0 then VK_ERROR_OUT_OF_DATE_KHR else 0

/-- A device with two queue families: family 0 has the graphics flag,
family 1 has not. -/
def split_device : GstVulkanDevice := ⟨2, [VK_QUEUE_GRAPHICS_BIT, 0], 0⟩

/-- Only family 1 can present to the surface; every call succeeds. -/
def split_platform : Platform :=
  { steady with presentation_support := fun i => i == 1 }

/-- A swapper on the split device whose surface properties were never
retrieved. -/
def unprobed : St :=
  { swapper :=
      { device := split_device, surface := 1, queue := 0, surf_props := sample_caps,
        surf_formats := none, n_surf_formats := 0,
        surf_present_modes := [], n_surf_present_modes := 0,
        swap_chain := 0, swap_chain_images := none, n_swap_chain_images := 0,
        v_info := ⟨12, 4, 4⟩, current_buffer := 0, to_quit := false },
    vk := ⟨[], [(.surface, 1)], 1⟩ }

/-- A 2x2 RGBA frame whose rows are padded to 16 bytes; byte `a` of the
plane holds the value `a`. -/
def padded_frame : GstVideoFrame := ⟨2, 2, 16, fun a => a⟩

/-- The layout of a tightly packed 2x2 RGBA linear image: 8 bytes per row,
16 bytes in all. -/
def tight_layout : VkSubresourceLayout := ⟨0, 16, 8⟩

/-! ## Supported formats and the redraw handler -/

/-- The list holds the video formats appended so far; the C code appends the
name of the format. -/
def _add_vk_format_to_list (list : List Nat) (format : Nat) : List Nat :=
  let v_format := _vk_format_to_video_format format
  if v_format ≠ 0 then list ++ [v_format] else list

/-- The loop of `gst_vulkan_swapper_get_supported_caps` over the surface
formats: `k` iterations remain, the index of the current one is `n - k`. -/
def supported_formats_loop (surf_formats : List VkSurfaceFormatKHR) (n : Nat) :
    Nat → List Nat → List Nat
  | 0, list => list
  | k + 1, list =>
    supported_formats_loop surf_formats n k
      (_add_vk_format_to_list list (surf_formats.getD (n - (k + 1)) ⟨0, 0⟩).format)

/-- The value of the `format` field of the caps that
`gst_vulkan_swapper_get_supported_caps` builds from the cached surface
formats. -/
def supported_formats (surf_formats : List VkSurfaceFormatKHR) (n_surf_formats : Nat) :
    List Nat :=
  if n_surf_formats ≠ 0 ∧ (surf_formats.getD 0 ⟨0, 0⟩).format = VK_FORMAT_UNDEFINED then
    _add_vk_format_to_list [] VK_FORMAT_B8G8R8A8_UNORM
  else
    supported_formats_loop surf_formats n_surf_formats n_surf_formats []

/-- The out value is the list of advertised video formats. -/
def gst_vulkan_swapper_get_supported_caps (p : Platform) (st : St) : Res (List Nat) :=
  match _vulkan_swapper_retrieve_surface_properties p st with
  | .abort s => .abort s
  | .ret false _ e s => .ret false [] e s
  | .ret true _ _ st1 =>
    match st1.swapper.surf_formats with
    | none => if st1.swapper.n_surf_formats ≠ 0 then .abort st1 else .ret true [] none st1
    | some surf_formats =>
      .ret true (supported_formats surf_formats st1.swapper.n_surf_formats) none st1

/-- The handler of the window's `draw` signal; it returns nothing, which is
rendered as `returned true none`. `logging` tells whether the error line is
emitted: emitting it reads `error->message`, and `error` is still `NULL` when
`_render_buffer_unlocked` failed without setting it. -/
def _on_window_draw (p : Platform) (fuel : Nat) (st : St) (logging : Bool) : Outcome :=
  if st.swapper.current_buffer = 0 then
    .returned true none st
  else
    match _render_buffer_unlocked p fuel st st.swapper.current_buffer with
    | .returned false none s => if logging then .aborted s else .returned true none s
    | .returned _ _ s => .returned true none s
    | .aborted s => .aborted s
    | .out_of_fuel s => .out_of_fuel s

/-! ## Footprints of the functions -/

/-- The state in which a function ended. -/
def Res.st {α : Type} : Res α → St
  | .ret _ _ _ st => st
  | .abort st => st

/-- What a function left in `*error`. -/
def Res.error {α : Type} : Res α → Option GError
  | .ret _ _ e _ => e
  | .abort _ => none

/-- The trace of `st'` is the trace of `st` followed by calls of entry
points in `apis` only. -/
@[irreducible]
def appended (apis : List Api) (st st' : St) : Prop :=
  ∃ T, st'.vk.trace = st.vk.trace ++ T ∧ ∀ c ∈ T, c.api ∈ apis

/-- Every field of the swapper other than the image array and its length is
the same in both states. -/
def same_config (st st' : St) : Prop :=
  st'.swapper.device = st.swapper.device ∧
  st'.swapper.surface = st.swapper.surface ∧
  st'.swapper.queue = st.swapper.queue ∧
  st'.swapper.surf_props = st.swapper.surf_props ∧
  st'.swapper.surf_formats = st.swapper.surf_formats ∧
  st'.swapper.n_surf_formats = st.swapper.n_surf_formats ∧
  st'.swapper.surf_present_modes = st.swapper.surf_present_modes ∧
  st'.swapper.n_surf_present_modes = st.swapper.n_surf_present_modes ∧
  st'.swapper.swap_chain = st.swapper.swap_chain ∧
  st'.swapper.v_info = st.swapper.v_info ∧
  st'.swapper.current_buffer = st.swapper.current_buffer ∧
  st'.swapper.to_quit = st.swapper.to_quit

/-- The error is not the one `_allocate_swapchain` sets for missing usage
flags. -/
def not_usage_error (e : Option GError) : Prop :=
  e ≠ some ⟨VK_ERROR_INITIALIZATION_FAILED,
    "Incorrect usage flags available for the swap images"⟩

/-- The entry points `_swapper_set_image_layout` calls. -/
def layout_apis : List Api :=
  [.gst_vulkan_device_create_cmd_buffer, .vkCreateFence, .vkBeginCommandBuffer,
    .vkCmdPipelineBarrier, .vkEndCommandBuffer, .vkQueueSubmit, .vkWaitForFences,
    .vkFreeCommandBuffers, .vkDestroyFence]

/-- The entry points `_allocate_swapchain` calls once the chain is created. -/
def images_apis : List Api :=
  .GetSwapchainImagesKHR :: .gst_vulkan_image_memory_wrapped :: layout_apis

/-- The entry points `_vulkan_swapper_retrieve_surface_properties` calls. -/
def retrieve_apis : List Api :=
  [.gst_vulkan_window_get_surface, .gst_vulkan_device_get_queue,
    .GetPhysicalDeviceSurfaceCapabilitiesKHR, .GetPhysicalDeviceSurfaceFormatsKHR,
    .GetPhysicalDeviceSurfacePresentModesKHR]

/-- The entry points the releases at the end of a presentation attempt
call. -/
def release_apis : List Api :=
  [.vkDestroySemaphore, .vkFreeCommandBuffers, .vkDestroyFence, .gst_memory_unref]

/-- The chain image at index `i` exists and is wrapped. -/
def image_ready (s : GstVulkanSwapper) (i : Nat) : Prop :=
  i < s.n_swap_chain_images ∧
    ∃ arr, s.swap_chain_images = some arr ∧ (arr.getD i null_image).mem ≠ 0

/-- The entry points `_swapchain_resize` calls. -/
def resize_apis : List Api :=
  .gst_memory_unref :: .CreateSwapchainKHR :: .DestroySwapchainKHR ::
    (retrieve_apis ++ images_apis)

/-- The calls of a run of `_build_render_buffer_cmd` in which every step
succeeds, in order: command buffer, frame map, staging image and its upload,
then the recording of the three layout changes around the one image copy, and
the fence. `cmd` and `staging` are the handles of the command buffer and of
the staging image. -/
def transfer_calls (buffer : Nat) (swap_mem : GstVulkanImageMemory) (vframe : GstVideoFrame)
    (v_info : GstVideoInfo) (cmd staging : Nat) : List Call :=
  [⟨.gst_vulkan_device_create_cmd_buffer, []⟩,
    ⟨.gst_video_frame_map, [buffer]⟩,
    ⟨.gst_vulkan_image_memory_alloc, [swap_mem.format, vframe.width, vframe.height]⟩,
    ⟨.gst_memory_map, [staging]⟩,
    ⟨.vkGetImageSubresourceLayout, [staging]⟩,
    ⟨.gst_video_frame_unmap, [buffer]⟩,
    ⟨.gst_memory_unmap, [staging]⟩,
    ⟨.vkBeginCommandBuffer, [cmd]⟩,
    ⟨.vkCmdPipelineBarrier, [cmd, swap_mem.image, VK_IMAGE_LAYOUT_TRANSFER_DST_OPTIMAL]⟩,
    ⟨.vkCmdPipelineBarrier, [cmd, staging, VK_IMAGE_LAYOUT_TRANSFER_SRC_OPTIMAL]⟩,
    ⟨.vkCmdCopyImage, [cmd, staging, swap_mem.image, 0, 0, 0, 0, 0, 0,
      min swap_mem.width v_info.width, min swap_mem.height v_info.height, 1]⟩,
    ⟨.vkCmdPipelineBarrier, [cmd, staging, VK_IMAGE_LAYOUT_PRESENT_SRC_KHR]⟩,
    ⟨.vkEndCommandBuffer, [cmd]⟩,
    ⟨.vkCreateFence, []⟩]

/-- The four release calls of one presentation attempt, in the order of the
code. -/
def release_calls (semaphore cmd fence staging : Nat) : List Call :=
  [⟨.vkDestroySemaphore, [semaphore]⟩, ⟨.vkFreeCommandBuffers, [cmd]⟩,
    ⟨.vkDestroyFence, [fence]⟩, ⟨.gst_memory_unref, [staging]⟩]

/-! ## More presenters and platforms -/

/-- Every call succeeds, but the surface offers the color-attachment usage
only: the transfer-destination bit is missing. -/
def no_transfer_dst : Platform :=
  { steady with surf_props := fun _ => ⟨2, 3, ⟨4, 4⟩, 1, 1, 16⟩ }

/-- The first `AcquireNextImageKHR` fails with `VK_ERROR_DEVICE_LOST`; every
other call succeeds. -/
def acquire_lost : Platform :=
  sample_platform fun api k =>
    if api = .AcquireNextImageKHR ∧ k = 0 then VK_ERROR_DEVICE_LOST else 0

/-- The first two `AcquireNextImageKHR` report out-of-date; every other call
succeeds. -/
def stale_twice : Platform :=
  sample_platform fun api k =>
    if api = .AcquireNextImageKHR ∧ k < 2 then VK_ERROR_OUT_OF_DATE_KHR else 0

/-- Every call succeeds, but `AcquireNextImageKHR` hands out image index 2,
which a chain of two images does not have. -/
def bad_index : Platform :=
  { steady with swap_idx := fun _ => 2 }

/-- The configured presenter holding frame 9 from an earlier presentation. -/
def retained : St :=
  configured.set fun s => { s with current_buffer := 9 }

/-- The first `AcquireNextImageKHR` reports out-of-date and the capability
query of the rebuild fails with `VK_ERROR_SURFACE_LOST_KHR`; every other call
succeeds. -/
def stale_then_lost : Platform :=
  sample_platform fun api k =>
    if api = .AcquireNextImageKHR ∧ k = 0 then VK_ERROR_OUT_OF_DATE_KHR
    else if api = .GetPhysicalDeviceSurfaceCapabilitiesKHR then VK_ERROR_SURFACE_LOST_KHR
    else 0

/-- The first `AcquireNextImageKHR` reports out-of-date, the rebuild
succeeds and the second `vkCreateSemaphore` fails with
`VK_ERROR_DEVICE_LOST`; every other call succeeds. -/
def stale_then_no_semaphore : Platform :=
  sample_platform fun api k =>
    if api = .AcquireNextImageKHR ∧ k = 0 then VK_ERROR_OUT_OF_DATE_KHR
    else if api = .vkCreateSemaphore ∧ k = 1 then VK_ERROR_DEVICE_LOST
    else 0

/-- Every `QueuePresentKHR` fails with `VK_ERROR_DEVICE_LOST`; every other
call succeeds. -/
def present_lost : Platform :=
  sample_platform fun api _ => if api = .QueuePresentKHR then VK_ERROR_DEVICE_LOST else 0

@[simp]
theorem calls_of_nil (api : Api) : calls_of api [] = [] := rfl

@[simp]
theorem calls_of_append (api : Api) (T U : List Call) :
    calls_of api (T ++ U) = calls_of api T ++ calls_of api U := by
  simp [calls_of]

@[simp]
theorem calls_of_cons (api : Api) (c : Call) (T : List Call) :
    calls_of api (c :: T) = if c.api = api then c.args :: calls_of api T else calls_of api T := by
  by_cases h : c.api = api <;> simp [calls_of, List.filter_cons, h]

@[simp]
theorem log_swapper (st : St) (a : Api) (args : List Nat) :
    (st.log a args).swapper = st.swapper := rfl

@[simp]
theorem log_trace (st : St) (a : Api) (args : List Nat) :
    (st.log a args).vk.trace = st.vk.trace ++ [⟨a, args⟩] := rfl

@[simp]
theorem log_live (st : St) (a : Api) (args : List Nat) :
    (st.log a args).vk.live = st.vk.live := rfl

@[simp]
theorem log_next (st : St) (a : Api) (args : List Nat) :
    (st.log a args).vk.next = st.vk.next := rfl

@[simp]
theorem create_swapper (st : St) (k : ResKind) : (st.create k).swapper = st.swapper := rfl

@[simp]
theorem create_trace (st : St) (k : ResKind) : (st.create k).vk.trace = st.vk.trace := rfl

@[simp]
theorem create_live (st : St) (k : ResKind) :
    (st.create k).vk.live = st.vk.live ++ [(k, st.vk.next + 1)] := rfl

@[simp]
theorem create_next (st : St) (k : ResKind) : (st.create k).vk.next = st.vk.next + 1 := rfl

@[simp]
theorem release_swapper (st : St) (h : Nat) : (st.release h).swapper = st.swapper := rfl

@[simp]
theorem release_trace (st : St) (h : Nat) : (st.release h).vk.trace = st.vk.trace := rfl

@[simp]
theorem release_live (st : St) (h : Nat) :
    (st.release h).vk.live = st.vk.live.filter (fun r => r.2 != h) := rfl

@[simp]
theorem release_next (st : St) (h : Nat) : (st.release h).vk.next = st.vk.next := rfl

@[simp]
theorem set_swapper (st : St) (f : GstVulkanSwapper → GstVulkanSwapper) :
    (st.set f).swapper = f st.swapper := rfl

@[simp]
theorem set_vk (st : St) (f : GstVulkanSwapper → GstVulkanSwapper) :
    (st.set f).vk = st.vk := rfl

@[simp]
theorem fresh_eq (st : St) : st.fresh = st.vk.next + 1 := rfl

theorem count_eq (st : St) (api : Api) : st.count api = (calls_of api st.vk.trace).length := rfl

@[simp]
theorem count_log (st : St) (a b : Api) (args : List Nat) :
    (st.log a args).count b = if a = b then st.count b + 1 else st.count b := by
  by_cases h : a = b <;> simp [St.count, h]

@[simp]
theorem count_create (st : St) (k : ResKind) (b : Api) :
    (st.create k).count b = st.count b := rfl

@[simp]
theorem count_release (st : St) (h : Nat) (b : Api) :
    (st.release h).count b = st.count b := rfl

@[simp]
theorem count_set (st : St) (f : GstVulkanSwapper → GstVulkanSwapper) (b : Api) :
    (st.set f).count b = st.count b := rfl

theorem helpers_no_error {p : Platform} (hp : helpers_succeed p) (api : Api) (k : Nat)
    (op : String) (h1 : api ≠ .AcquireNextImageKHR) (h2 : api ≠ .QueuePresentKHR) :
    gst_vulkan_error_to_g_error (p.result api k) op = none := by
  have := hp api k h1 h2
  simp [gst_vulkan_error_to_g_error, not_lt.mpr this]

theorem helpers_not_neg {p : Platform} (hp : helpers_succeed p) (api : Api) (k : Nat)
    (h1 : api ≠ .AcquireNextImageKHR) (h2 : api ≠ .QueuePresentKHR) :
    ¬ p.result api k < 0 :=
  not_lt.mpr (hp api k h1 h2)

theorem helpers_no_error_at {p : Platform} (hp : helpers_succeed p) (api : Api)
    (h1 : api ≠ .AcquireNextImageKHR) (h2 : api ≠ .QueuePresentKHR) (k : Nat) (op : String) :
    gst_vulkan_error_to_g_error (p.result api k) op = none :=
  helpers_no_error hp api k op h1 h2

theorem same_calls_trans {a b c : St} (h1 : same_calls a b) (h2 : same_calls b c) :
    same_calls a c := fun api hapi => (h1 api hapi).trans (h2 api hapi)

theorem live_sub_trans {a b c : St} (h1 : live_sub a b) (h2 : live_sub b c) :
    live_sub a c := fun r hr hk => h2 r (h1 r hr hk) hk

theorem helper_step_trans {a b c : St} (h1 : helper_step a b) (h2 : helper_step b c) :
    helper_step a c :=
  ⟨live_sub_trans h2.1 h1.1, same_calls_trans h2.2.1 h1.2.1, h1.2.2.trans h2.2.2⟩

theorem helper_step_refl (a : St) : helper_step a a :=
  ⟨fun _ h _ => h, fun _ _ => rfl, le_refl _⟩

theorem mem_observed {api : Api} (h : api ∈ observed) :
    api = .AcquireNextImageKHR ∨ api = .QueuePresentKHR ∨ api = .gst_video_frame_map ∨
      api = .vkCmdCopyImage ∨ api = .CreateSwapchainKHR ∨ api = .vkCreateSemaphore ∨
      api = .vkDestroySemaphore := by
  simpa [observed] using h

theorem set_image_layout_run (p : Platform) (hp : helpers_succeed p) {st : St}
    {image : GstVulkanImageMemory} {l : Nat} {r : Res Unit}
    (hr : _swapper_set_image_layout p st image l = r) (hq : st.swapper.queue ≠ 0) :
    ∃ st', r = .ret true () none st' ∧ st'.swapper = st.swapper ∧ helper_step st st' := by
  subst hr
  simp only [_swapper_set_image_layout, gst_vulkan_device_create_cmd_buffer, _new_fence, vk_call,
    St.result, _swapper_set_image_layout_with_cmd]
  simp [helpers_no_error hp, helpers_not_neg hp, hq, observed, same_calls, helper_step, live_sub]
  refine ⟨fun a b h _ _ _ => h, ?_⟩
  omega

theorem wrap_images_loop_run (p : Platform) (hp : helpers_succeed p)
    (format width height usage : Nat) (imgs : List Nat) :
    ∀ {i : Nat} {st : St} (arr : List GstVulkanImageMemory) {r : Res Unit},
      wrap_images_loop p format width height usage imgs i st = r →
      st.swapper.queue ≠ 0 → st.swapper.swap_chain_images = some arr →
      i + imgs.length ≤ arr.length →
      ∃ st' arr', r = .ret true () none st' ∧
        st'.swapper = { st.swapper with swap_chain_images := some arr' } ∧
        arr'.length = arr.length ∧
        (∀ j, j < i → arr'.getD j null_image = arr.getD j null_image) ∧
        (∀ j, j < imgs.length → (arr'.getD (i + j) null_image).mem ≠ 0) ∧
        helper_step st st' := by
  induction imgs with
  | nil =>
    intro i st arr r hr _ harr _
    subst hr
    refine ⟨st, arr, rfl, ?_, rfl, fun _ _ => rfl, ?_, helper_step_refl _⟩
    · rw [← harr]
    · intro j hj
      simp at hj
  | cons img rest ih =>
    intro i st arr r hr hq harr hlen
    subst hr
    simp only [List.length_cons] at hlen
    unfold wrap_images_loop
    simp only
    generalize hr3 : _swapper_set_image_layout p _ _ _ = r3
    obtain ⟨st3, rfl, hsw3, hs3⟩ := set_image_layout_run p hp hr3
      (by simpa [set_swap_chain_image] using hq)
    simp only
    generalize hr' : wrap_images_loop p _ _ _ _ _ _ _ = r'
    obtain ⟨st', arr', rfl, hsw', hlen', hlow', himg', hs'⟩ := ih
      (arr.set i ⟨st.vk.next + 1, img, format, width, height⟩) hr'
      (by rw [hsw3]; simpa [set_swap_chain_image] using hq)
      (by rw [hsw3]; simp [set_swap_chain_image, harr])
      (by simp; omega)
    refine ⟨st', arr', rfl, ?_, ?_, ?_, ?_, ?_⟩
    · rw [hsw', hsw3]
      simp [set_swap_chain_image]
    · simpa using hlen'
    · intro j hj
      rw [hlow' j (by omega)]
      simp only [List.getD_eq_getElem?_getD, List.getElem?_set]
      rw [if_neg (by omega)]
    · intro j hj
      cases j with
      | zero =>
        rw [Nat.add_zero, hlow' i (by omega)]
        have hi : i < arr.length := by omega
        simp [List.getD_eq_getElem?_getD, List.getElem?_set, hi]
      | succ j =>
        have := himg' j (by simpa using hj)
        rw [show i + (j + 1) = i + 1 + j by omega]
        exact this
    · refine helper_step_trans ?_ (helper_step_trans hs3 hs')
      refine ⟨?_, ?_, by simp⟩
      · intro r hr hk
        simp at hr
        rcases hr with h | h
        · exact h
        · rw [h] at hk
          simp [per_attempt] at hk
      · intro api hapi
        rcases mem_observed hapi with h | h | h | h | h | h | h <;> subst h <;> simp

theorem ensure_surface_run (p : Platform) (hp : helpers_succeed p) {st : St} {r : Res Unit}
    (hr : _vulkan_swapper_ensure_surface p st = r) :
    ∃ st', r = .ret true () none st' ∧
      st'.swapper = { st.swapper with surface := st'.swapper.surface } ∧
      helper_step st st' := by
  subst hr
  unfold _vulkan_swapper_ensure_surface
  by_cases hs : st.swapper.surface = 0
  · simp [hs, St.result, helpers_not_neg hp, live_sub, same_calls, observed, per_attempt, helper_step]
    rintro a b (h | ⟨rfl, -⟩) hk
    · exact h
    · simp at hk
  · simp [hs, helper_step_refl]

theorem allocate_images_run (p : Platform) (hp : helpers_succeed p) {st : St}
    {format usage : Nat} {dims : VkExtent2D} {r : Res Unit}
    (hr : allocate_images p st format usage dims = r) (hq : st.swapper.queue ≠ 0) :
    ∃ st' arr', r = .ret true () none st' ∧
      st'.swapper = { st.swapper with swap_chain_images := some arr',
                                      n_swap_chain_images := arr'.length } ∧
      (∀ i, (∀ k, i < (p.swap_chain_images k).length) → i < arr'.length) ∧
      (∀ j, j < arr'.length → (arr'.getD j null_image).mem ≠ 0) ∧
      helper_step st st' := by
  subst hr
  have he := helpers_no_error_at hp .GetSwapchainImagesKHR (by decide) (by decide)
  simp only [allocate_images, he]
  generalize hr' : wrap_images_loop p _ _ _ _ _ _ _ = r'
  obtain ⟨st', arr', rfl, hsw', hlen', -, himg', hs'⟩ :=
    wrap_images_loop_run p hp _ _ _ _ _ _ hr' (by simpa using hq) rfl (by simp)
  simp only [List.length_replicate, List.length_take] at hlen'
  refine ⟨st', arr', rfl, ?_, ?_, ?_, ?_⟩
  · rw [hsw']
    simp [hlen']
  · intro i hi
    rw [hlen']
    exact lt_min (hi _) (hi _)
  · intro j hj
    have := himg' j (by simpa [hlen'] using hj)
    simpa using this
  · refine helper_step_trans ?_ hs'
    refine ⟨fun r hr _ => by simpa using hr, ?_, by simp⟩
    intro api hapi
    rcases mem_observed hapi with h | h | h | h | h | h | h <;> subst h <;> simp

theorem allocate_swapchain_run (p : Platform) (hp : helpers_succeed p) (hu : usage_supported p)
    {st : St} {r : Res Unit} (hr : _allocate_swapchain p st = r) (hq : st.swapper.queue ≠ 0) :
    ∃ st', r = .ret true () none st' ∧ rebuilt p st st' := by
  subst hr
  unfold _allocate_swapchain
  generalize hr1 : _vulkan_swapper_ensure_surface p st = r1
  obtain ⟨st1, rfl, hsw1, hs1⟩ := ensure_surface_run p hp hr1
  have hq1 : st1.swapper.queue = st.swapper.queue := by rw [hsw1]
  have hc1 : st1.swapper.swap_chain = st.swapper.swap_chain := by rw [hsw1]
  have he1 := helpers_no_error_at hp .GetPhysicalDeviceSurfaceCapabilitiesKHR (by decide) (by decide)
  have he2 := helpers_no_error_at hp .CreateSwapchainKHR (by decide) (by decide)
  simp only [he1, St.result, he2, set_swapper, log_swapper, (hu _).1, (hu _).2, if_false]
  by_cases hold : st1.swapper.swap_chain = VK_NULL_HANDLE
  all_goals
    simp only [hold, ne_eq, not_true_eq_false, not_false_eq_true, if_true, if_false]
    generalize hr2 : allocate_images p _ _ _ _ = r2
    obtain ⟨st2, arr, rfl, hsw2, hidx, hmem, hs2⟩ := allocate_images_run p hp hr2
      (by simpa [hq1] using hq)
    refine ⟨st2, rfl, ?_⟩
    unfold rebuilt
    rw [hsw2]
    simp only [set_swapper, log_swapper, create_swapper, release_swapper, hq1]
    have hv1 : st1.swapper.v_info = st.swapper.v_info := by rw [hsw1]
    have hb1 : st1.swapper.current_buffer = st.swapper.current_buffer := by rw [hsw1]
    have ht1 : st1.swapper.to_quit = st.swapper.to_quit := by rw [hsw1]
    obtain ⟨hl1, hs1c, hn1⟩ := hs1
    obtain ⟨hl2, hs2c, hn2⟩ := hs2
    simp only [log_next, create_next, release_next, set_vk, fresh_eq] at hn2
    refine ⟨trivial, hv1, hb1, ht1, ?_, ?_, ⟨arr, rfl, rfl, hidx, hmem⟩, ?_, ?_, ?_⟩
    · simp only [fresh_eq, log_next, set_vk]
      omega
    · omega
    · intro r hr hk
      have := hl2 r hr hk
      simp only [log_live, create_live, release_live, set_vk, List.mem_append, List.mem_filter,
        List.mem_singleton] at this
      refine hl1 r ?_ hk
      have h3 : r ∈ st1.vk.live ∨ r = (ResKind.swapchain, st1.vk.next + 1) := by tauto
      rcases h3 with h | h
      · exact h
      · rw [h] at hk
        simp [per_attempt] at hk
    · intro api hapi hne
      rw [hs2c api hapi, ← hs1c api hapi]
      rcases mem_observed hapi with h | h | h | h | h | h | h <;> subst h <;> simp at hne ⊢
    · rw [hs2c _ (by simp [observed]), ← hs1c _ (by simp [observed]), ← hc1]
      clear hr2 hsw2 hr1 hsw1 hl2 hs2c hl1 hs1c
      simp [hold]

theorem unref_images_loop_step (images : List GstVulkanImageMemory) (n k : Nat) (st : St) :
    (unref_images_loop images n k st).swapper = st.swapper ∧
      helper_step st (unref_images_loop images n k st) ∧
      (unref_images_loop images n k st).vk.next = st.vk.next := by
  induction k generalizing st with
  | zero => exact ⟨rfl, helper_step_refl _, rfl⟩
  | succ k ih =>
    unfold unref_images_loop
    simp only
    split_ifs with h
    · obtain ⟨h1, h2, h3⟩ := ih ((st.log .gst_memory_unref
        [(images.getD (n - (k + 1)) null_image).mem]).release
          (images.getD (n - (k + 1)) null_image).mem)
      refine ⟨h1, helper_step_trans ?_ h2, h3⟩
      refine ⟨fun r hr _ => ?_, ?_, le_refl _⟩
      · simp only [release_live, log_live, List.mem_filter] at hr
        exact hr.1
      · intro api hapi
        rcases mem_observed hapi with h | h | h | h | h | h | h <;> subst h <;> simp
    · exact ih st

theorem swapchain_resize_run (p : Platform) (hp : helpers_succeed p) (hu : usage_supported p)
    {st : St} {r : Res Unit} (hr : _swapchain_resize p st = r) (hq : st.swapper.queue ≠ 0) :
    ∃ st', r = .ret true () none st' ∧ rebuilt p st st' := by
  subst hr
  unfold _swapchain_resize
  simp only [hq, if_false]
  generalize hr2 : _allocate_swapchain p _ = r2
  cases himgs : st.swapper.swap_chain_images with
  | none =>
    rw [himgs] at hr2
    exact allocate_swapchain_run p hp hu hr2 hq
  | some images =>
    rw [himgs] at hr2
    simp only at hr2
    obtain ⟨hsw, ⟨hl, hc, hn⟩, hnx⟩ := unref_images_loop_step images
      st.swapper.n_swap_chain_images st.swapper.n_swap_chain_images st
    obtain ⟨st', rfl, h1, h2, h3, h4, h5, h6, h7, h8, h9, h10⟩ :=
      allocate_swapchain_run p hp hu hr2 (by rw [hsw]; exact hq)
    refine ⟨st', rfl, ?_⟩
    rw [hsw] at h1 h2 h3 h4 h10
    rw [hnx] at h5 h6
    refine ⟨h1, h2, h3, h4, h5, h6, h7, live_sub_trans h8 hl, ?_, ?_⟩
    · intro api hapi hne
      rw [h9 api hapi hne, hc api hapi]
    · rw [hc _ (by simp [observed])] at h10
      exact h10

theorem copy_rows_completes (frame : Nat → Nat) (stride : Nat) (layout : VkSubresourceLayout)
    (k dest src : Nat) (mem : Nat → Nat)
    (h : dest + k * layout.rowPitch - layout.offset ≤ layout.size) :
    ∃ mem', copy_rows frame stride layout k dest src mem = some mem' := by
  induction k generalizing dest src mem with
  | zero => exact ⟨mem, rfl⟩
  | succ k ih =>
    unfold copy_rows
    simp only
    have h1 : dest + layout.rowPitch - 0 - layout.offset ≤ layout.size := by
      have : dest + layout.rowPitch ≤ dest + (k + 1) * layout.rowPitch := by
        have : layout.rowPitch ≤ (k + 1) * layout.rowPitch := Nat.le_mul_of_pos_left _ (by omega)
        omega
      omega
    rw [if_pos h1]
    apply ih
    have : dest + layout.rowPitch + k * layout.rowPitch = dest + (k + 1) * layout.rowPitch := by ring
    omega

theorem upload_frame_run {vframe : GstVideoFrame} {layout : VkSubresourceLayout}
    {mem : Nat → Nat} (hfit : vframe.height * layout.rowPitch ≤ layout.size)
    {up : Option (Nat → Nat)} (h : upload_frame vframe layout mem = up) :
    ∃ mem', up = some mem' := by
  subst h
  exact copy_rows_completes _ _ _ _ _ _ _ (by omega)

theorem helpers_not_neg_at {p : Platform} (hp : helpers_succeed p) (api : Api)
    (h1 : api ≠ .AcquireNextImageKHR) (h2 : api ≠ .QueuePresentKHR) (k : Nat) :
    ¬ p.result api k < 0 :=
  helpers_not_neg hp api k h1 h2

theorem extends_snoc {l l' : List Call} (c : Call) (h : ∃ T, l' = l ++ T) :
    ∃ T, l' ++ [c] = l ++ T := by
  obtain ⟨T, rfl⟩ := h
  exact ⟨T ++ [c], by simp⟩

theorem build_render_buffer_cmd_run (p : Platform) (hp : helpers_succeed p) (hf : rows_fit p)
    {st : St} {swap_idx buffer : Nat} {cd : cmd_data} {r : Res cmd_data}
    (arr : List GstVulkanImageMemory)
    (hr : _build_render_buffer_cmd p st swap_idx buffer cd = r)
    (hidx : swap_idx < st.swapper.n_swap_chain_images)
    (harr : st.swapper.swap_chain_images = some arr)
    (hmem : (arr.getD swap_idx null_image).mem ≠ 0) :
    ∃ st', r = .ret true ⟨st.vk.next + 1, st.vk.next + 3, true, st.vk.next + 2⟩ none st' ∧
      st'.swapper = st.swapper ∧
      st'.vk.next = st.vk.next + 3 ∧
      st'.vk.live = st.vk.live ++ [(.cmd_buffer, st.vk.next + 1),
        (.staging_image, st.vk.next + 2), (.fence, st.vk.next + 3)] ∧
      calls_of .gst_video_frame_map st'.vk.trace =
        calls_of .gst_video_frame_map st.vk.trace ++ [[buffer]] ∧
      calls_of .vkCmdCopyImage st'.vk.trace =
        calls_of .vkCmdCopyImage st.vk.trace ++
          [[st.vk.next + 1, st.vk.next + 2, (arr.getD swap_idx null_image).image, 0, 0, 0, 0, 0, 0,
            min (arr.getD swap_idx null_image).width st.swapper.v_info.width,
            min (arr.getD swap_idx null_image).height st.swapper.v_info.height, 1]] ∧
      (∀ api ∈ observed, api ≠ .gst_video_frame_map → api ≠ .vkCmdCopyImage →
        calls_of api st'.vk.trace = calls_of api st.vk.trace) ∧
      (∃ T, st'.vk.trace = st.vk.trace ++ T) := by
  subst hr
  have n1 := helpers_not_neg_at hp .gst_vulkan_device_create_cmd_buffer (by decide) (by decide)
  have n2 := helpers_not_neg_at hp .gst_video_frame_map (by decide) (by decide)
  have n3 := helpers_not_neg_at hp .gst_vulkan_image_memory_alloc (by decide) (by decide)
  have n4 := helpers_not_neg_at hp .gst_memory_map (by decide) (by decide)
  have e1 := helpers_no_error_at hp .vkBeginCommandBuffer (by decide) (by decide)
  have e2 := helpers_no_error_at hp .vkEndCommandBuffer (by decide) (by decide)
  have e3 := helpers_no_error_at hp .vkCreateFence (by decide) (by decide)
  unfold _build_render_buffer_cmd
  simp only [hidx, not_true_eq_false, if_false, harr, gst_vulkan_device_create_cmd_buffer,
    St.result, n1, n2, n3, n4, hmem]
  generalize hup : upload_frame _ _ _ = up
  obtain ⟨mem', rfl⟩ := upload_frame_run (hf _ _) hup
  simp only [record_render_buffer_cmd, vk_call, St.result, e1, e2, e3, _new_fence,
    _swapper_set_image_layout_with_cmd]
  refine ⟨_, rfl, ?_, ?_, ?_, ?_, ?_, ?_, ?h⟩
  case h =>
    simp only [log_trace, create_trace]
    repeat apply extends_snoc
    exact ⟨[], by simp⟩
  all_goals simp [observed]

theorem not_out_of_date {r : Int} (h : 0 ≤ r) : r ≠ VK_ERROR_OUT_OF_DATE_KHR := by
  unfold VK_ERROR_OUT_OF_DATE_KHR
  omega

theorem no_error_of_nonneg {r : Int} (h : 0 ≤ r) (op : String) :
    gst_vulkan_error_to_g_error r op = none := by
  simp [gst_vulkan_error_to_g_error, not_lt.mpr h]

/-! ## The presentation call: guards and exits -/

/-- C1 (code defect): when the first `vkQueueSubmit` of a presentation call
fails, `_render_buffer_unlocked` returns `FALSE` straight away instead of
going through `error:`; the semaphore, the command buffer, the staging image
and the fence created by the attempt (handles 6 to 9) all remain allocated. -/
theorem render_buffer_leaks_on_failed_submit :
    ∃ st', _render_buffer_unlocked submit_fails 1 configured 9 =
        .returned false (some ⟨VK_ERROR_DEVICE_LOST, "vkQueueSubmit"⟩) st' ∧
      st'.vk.live = configured.vk.live ++
        [(.semaphore, 6), (.cmd_buffer, 7), (.staging_image, 8), (.fence, 9)] ∧
      calls_of .vkDestroySemaphore st'.vk.trace = [] ∧
      calls_of .vkFreeCommandBuffers st'.vk.trace = [] ∧
      calls_of .vkDestroyFence st'.vk.trace = [] ∧
      calls_of .gst_memory_unref st'.vk.trace = [] := by
  refine ⟨_, rfl, ?_⟩
  decide

/-- C2 (counterexample): with the quit flag set and a `NULL` frame the
presentation call fails with the error of the `NULL` check
(`VK_ERROR_INITIALIZATION_FAILED`, "Invalid buffer"), not with
`VK_ERROR_SURFACE_LOST_KHR`: the frame is tested before the flag. -/
theorem render_buffer_closed_null_frame :
    closed.swapper.to_quit = true ∧
      gst_vulkan_swapper_render_buffer steady 1 closed 0 =
        .returned false (some ⟨VK_ERROR_INITIALIZATION_FAILED, "Invalid buffer"⟩) closed ∧
      VK_ERROR_INITIALIZATION_FAILED ≠ VK_ERROR_SURFACE_LOST_KHR := by
  decide

/-- C2 (amended): for every presenter state in which the quit flag is set,
every platform and every non-`NULL` frame, the presentation call returns
`FALSE` with `VK_ERROR_SURFACE_LOST_KHR` and ends in the state it started in:
the swapper (chain handle, chain images, retained buffer) is unchanged and no
call was made. -/
theorem render_buffer_after_close (p : Platform) (fuel : Nat) (st : St) (buffer : Nat)
    (hb : buffer ≠ 0) (hq : st.swapper.to_quit = true) :
    gst_vulkan_swapper_render_buffer p fuel st buffer =
      .returned false (some ⟨VK_ERROR_SURFACE_LOST_KHR, "Output window was closed"⟩) st := by
  simp [gst_vulkan_swapper_render_buffer, _render_buffer_unlocked, error_exit, release_attempt,
    hb, hq]

/-- C2 (witness): the closed presenter rejects frame 9. -/
theorem render_buffer_after_close_witness :
    (9 : Nat) ≠ 0 ∧ closed.swapper.to_quit = true ∧
      gst_vulkan_swapper_render_buffer steady 1 closed 9 =
        .returned false (some ⟨VK_ERROR_SURFACE_LOST_KHR, "Output window was closed"⟩) closed :=
  ⟨by decide, rfl, render_buffer_after_close steady 1 closed 9 (by decide) rfl⟩

/-- C3: for every presenter state and every platform, the presentation call
with a `NULL` frame returns `FALSE` with the error set by the `NULL` check
(`g_set_error` with "Invalid buffer", the invalid-input error of the
taxonomy) and ends in the state it started in: the swapper is unchanged, no
call was made and no object was created. -/
theorem render_buffer_null_frame (p : Platform) (fuel : Nat) (st : St) :
    gst_vulkan_swapper_render_buffer p fuel st 0 =
      .returned false (some ⟨VK_ERROR_INITIALIZATION_FAILED, "Invalid buffer"⟩) st := by
  simp [gst_vulkan_swapper_render_buffer, _render_buffer_unlocked, error_exit, release_attempt]

/-! ## Stale-chain recovery -/

/-- C4: for a non-`NULL` frame, with the quit flag clear and the queue in
place: if the first image acquisition of the call reports out-of-date, the
second one succeeds with an index valid for the images the platform reports,
and every other call succeeds, then with fuel for two passes the call returns
`TRUE` with no error. It made exactly one `CreateSwapchainKHR` call, given the
old chain; it acquired twice, first on the old chain and then on the rebuilt
one (a fresh handle); it mapped the input frame once; its one copy targets the
image of the rebuilt chain at the newly acquired index, which is also the index
presented on the rebuilt chain; and no per-attempt object remains allocated
that was not allocated before. -/
theorem acquire_out_of_date_recovers (p : Platform) (st : St) (buffer fuel : Nat)
    (hbuf : buffer ≠ 0) (hquit : st.swapper.to_quit = false) (hq : st.swapper.queue ≠ 0)
    (hp : helpers_succeed p) (hu : usage_supported p) (hf : rows_fit p)
    (hood : p.result .AcquireNextImageKHR (st.count .AcquireNextImageKHR) =
      VK_ERROR_OUT_OF_DATE_KHR)
    (hacq : 0 ≤ p.result .AcquireNextImageKHR (st.count .AcquireNextImageKHR + 1))
    (hpres : 0 ≤ p.result .QueuePresentKHR (st.count .QueuePresentKHR))
    (hidx : ∀ k, p.swap_idx (st.count .AcquireNextImageKHR + 1) <
      (p.swap_chain_images k).length) :
    ∃ st' images semaphore cmd staging args,
      _render_buffer_unlocked p (fuel + 2) st buffer = .returned true none st' ∧
      st'.swapper.swap_chain_images = some images ∧
      st'.swapper.current_buffer = buffer ∧
      st.vk.next < st'.swapper.swap_chain ∧
      calls_of .CreateSwapchainKHR st'.vk.trace =
        calls_of .CreateSwapchainKHR st.vk.trace ++ [st.swapper.swap_chain :: args] ∧
      calls_of .AcquireNextImageKHR st'.vk.trace =
        calls_of .AcquireNextImageKHR st.vk.trace ++
          [[st.swapper.swap_chain, st.vk.next + 1], [st'.swapper.swap_chain, semaphore]] ∧
      calls_of .gst_video_frame_map st'.vk.trace =
        calls_of .gst_video_frame_map st.vk.trace ++ [[buffer]] ∧
      calls_of .vkCmdCopyImage st'.vk.trace =
        calls_of .vkCmdCopyImage st.vk.trace ++
          [[cmd, staging,
            (images.getD (p.swap_idx (st.count .AcquireNextImageKHR + 1)) null_image).image,
            0, 0, 0, 0, 0, 0,
            min (images.getD (p.swap_idx (st.count .AcquireNextImageKHR + 1)) null_image).width
              st.swapper.v_info.width,
            min (images.getD (p.swap_idx (st.count .AcquireNextImageKHR + 1)) null_image).height
              st.swapper.v_info.height, 1]] ∧
      calls_of .QueuePresentKHR st'.vk.trace =
        calls_of .QueuePresentKHR st.vk.trace ++
          [[st.swapper.queue, st'.swapper.swap_chain,
            p.swap_idx (st.count .AcquireNextImageKHR + 1), semaphore]] ∧
      live_sub st' st := by
  have e1 := helpers_no_error_at hp .vkCreateSemaphore (by decide) (by decide)
  have e2 := helpers_no_error_at hp .vkQueueSubmit (by decide) (by decide)
  have e3 := helpers_no_error_at hp .vkWaitForFences (by decide) (by decide)
  unfold _render_buffer_unlocked
  simp only [hbuf, hquit, if_false, Bool.false_eq_true]
  rw [reacquire]
  simp only [St.result, e1, count_log, count_create, count_set, if_false, hood, if_true,
    reduceCtorEq]
  generalize hr1 : _swapchain_resize p _ = r1
  obtain ⟨st5, rfl, h1, h2, h3, h4, h5, h6, ⟨arr, h7a, h7b, h7c, h7d⟩, h8, h9, ⟨args, h10⟩⟩ :=
    swapchain_resize_run p hp hu hr1 (by simpa using hq)
  clear hr1
  simp only [log_swapper, create_swapper, release_swapper, set_swapper, log_trace, create_trace,
    release_trace, set_vk, log_next, create_next, release_next, fresh_eq] at h1 h2 h3 h4 h5 h6 h10
  have hacq5 : st5.count .AcquireNextImageKHR = st.count .AcquireNextImageKHR + 1 := by
    rw [count_eq, h9 _ (by simp [observed]) (by decide)]
    simp [count_eq]
  have hpres5 : st5.count .QueuePresentKHR = st.count .QueuePresentKHR := by
    rw [count_eq, h9 _ (by simp [observed]) (by decide)]
    simp [count_eq]
  simp only
  rw [reacquire]
  simp only [St.result, e1, count_log, count_create, count_set, if_false, reduceCtorEq, hacq5,
    not_out_of_date hacq, no_error_of_nonneg hacq]
  generalize hr2 : _build_render_buffer_cmd p _ _ _ _ = r2
  obtain ⟨st6, rfl, b1, b2, b3, b4, b5, b6, ⟨T6, b7⟩⟩ := build_render_buffer_cmd_run p hp hf arr hr2
    (by simpa [h7b] using h7c _ hidx) (by simpa using h7a)
    (h7d _ (h7c _ hidx))
  clear hr2
  simp only [log_swapper, create_swapper, release_swapper, set_swapper, log_trace, create_trace,
    release_trace, set_vk, log_next, create_next, release_next, fresh_eq, log_live, create_live,
    release_live] at b1 b2 b3 b4 b5 b6
  have hpres6 : st6.count .QueuePresentKHR = st.count .QueuePresentKHR := by
    rw [count_eq, b6 _ (by simp [observed]) (by decide) (by decide)]
    simp [← count_eq, hpres5]
  simp only [b1, h1, hq, if_false, vk_call, St.result, e2, e3, count_log, reduceCtorEq,
    log_swapper, create_swapper, release_swapper, set_swapper, log_next, create_next, fresh_eq,
    hpres6, not_out_of_date hpres, no_error_of_nonneg hpres]
  have q1 := h9 .AcquireNextImageKHR (by simp [observed]) (by decide)
  have q2 := h9 .QueuePresentKHR (by simp [observed]) (by decide)
  have q3 := h9 .gst_video_frame_map (by simp [observed]) (by decide)
  have q4 := h9 .vkCmdCopyImage (by simp [observed]) (by decide)
  have c1 := b6 .AcquireNextImageKHR (by simp [observed]) (by decide) (by decide)
  have c2 := b6 .QueuePresentKHR (by simp [observed]) (by decide) (by decide)
  have c3 := b6 .CreateSwapchainKHR (by simp [observed]) (by decide) (by decide)
  simp only [log_trace, create_trace, release_trace, set_vk, calls_of_append, calls_of_cons,
    calls_of_nil, reduceCtorEq, if_false, if_true, List.append_nil, log_swapper, create_swapper,
    set_swapper, fresh_eq, log_next] at q1 q2 q3 q4 c1 c2 c3 b4 b5 h10
  refine ⟨_, arr, st5.vk.next + 1, st5.vk.next + 1 + 1, st5.vk.next + 1 + 2, args, rfl,
    ?_, ?_, ?_, ?_, ?_, ?_, ?_, ?_, ?_⟩
  all_goals clear e1 e2 e3 hood hacq hpres hidx h7c h7d hp hu hf h9 b6
  · simp [release_attempt, b1, h7a]
  · simp [release_attempt, b1, h3]
  · simp [release_attempt, b1]
    omega
  · simp [release_attempt, c3, h10]
  · simp [release_attempt, c1, q1, b1]
  · simp [release_attempt, b4, q3]
  · simp [release_attempt, b5, q4, h2]
  · simp [release_attempt, c2, q2, b1]
  · intro r hr hk
    simp only [release_attempt, log_swapper, create_swapper, release_swapper,
      set_swapper, log_trace, create_trace, release_trace, set_vk, log_next, create_next,
      release_next, log_live, create_live, release_live, b3, List.mem_filter, List.mem_append,
      List.mem_singleton, List.mem_cons, bne_iff_ne, ne_eq, Nat.add_eq_zero, one_ne_zero,
      and_false, not_false_eq_true, if_true, OfNat.ofNat_ne_zero, List.not_mem_nil,
      or_false] at hr
    have hr5 : r ∈ st5.vk.live := by
      obtain ⟨a, b⟩ := r
      simp only [Prod.mk.injEq] at hr
      tauto
    have h0 := h8 r hr5 hk
    simp only [log_live, create_live, release_live, set_vk, List.mem_filter, List.mem_append,
      List.mem_singleton, bne_iff_ne, ne_eq, log_next, fresh_eq] at h0
    obtain ⟨a, b⟩ := r
    simp only [Prod.mk.injEq] at h0
    tauto

theorem stale_acquire_helpers : helpers_succeed stale_acquire := by
  intro api k h1 _
  simp [stale_acquire, sample_platform, h1]

theorem stale_present_helpers : helpers_succeed stale_present := by
  intro api k _ h2
  simp [stale_present, sample_platform, h2]

/-- C4 (witness): on the configured presenter, with a platform whose first
acquisition is out of date, the hypotheses hold and frame 9 is presented. -/
theorem acquire_out_of_date_recovers_witness :
    helpers_succeed stale_acquire ∧ usage_supported stale_acquire ∧ rows_fit stale_acquire ∧
      stale_acquire.result .AcquireNextImageKHR (configured.count .AcquireNextImageKHR) =
        VK_ERROR_OUT_OF_DATE_KHR ∧
      ∃ st', _render_buffer_unlocked stale_acquire 2 configured 9 = .returned true none st' ∧
        st'.swapper.current_buffer = 9 ∧ live_sub st' configured := by
  have hu : usage_supported stale_acquire :=
    fun _ => (by decide : (18 : Nat) &&& 2 ≠ 0 ∧ (18 : Nat) &&& 16 ≠ 0)
  have hf : rows_fit stale_acquire := fun _ _ => (by decide : 4 * 16 ≤ 64)
  obtain ⟨st', _, _, _, _, _, h, _, hb, _, _, _, _, _, _, hl⟩ :=
    acquire_out_of_date_recovers stale_acquire configured 9 0 (by decide) rfl (by decide)
      stale_acquire_helpers hu hf (by decide) (by decide) (by decide) (fun _ => (by decide : 1 < 2))
  exact ⟨stale_acquire_helpers, hu, hf, by decide, st', h, hb, hl⟩


/-! ## Queue selection -/

theorem queue_family_loop_agree (props : List Nat) (sup : Nat → Bool) (n k : Nat) :
    (queue_family_loop props sup n k G_MAXUINT32 G_MAXUINT32).1 =
      (queue_family_loop props sup n k G_MAXUINT32 G_MAXUINT32).2 := by
  induction k with
  | zero => rfl
  | succ k ih =>
    unfold queue_family_loop
    simp only [ne_eq, not_true_eq_false, if_false]
    split_ifs <;> first | rfl | exact ih

/-- The two indices found by the queue loop are always equal, so the test
`graphics_queue != present_queue` never fires. -/
theorem find_queues_agree (dev : GstVulkanDevice) (sup : Nat → Bool) :
    (find_queues dev sup).1 = (find_queues dev sup).2 :=
  queue_family_loop_agree _ _ _ _

/-- C6 (code defect): on a device where family 0 has the graphics flag,
only family 1 can present and no family does both, retrieving the surface
properties does not fail with the incompatible-queue error: both indices stay
`(guint32) -1`, the queue is fetched with index 4294967295 and the call
returns `TRUE`. -/
theorem retrieve_without_common_queue :
    (∀ i, i < split_device.n_queues →
      ¬ (split_device.queue_family_props.getD i 0 &&& VK_QUEUE_GRAPHICS_BIT ≠ 0 ∧
        split_platform.presentation_support i = true)) ∧
      unprobed.swapper.surf_formats = none ∧
      find_queues split_device split_platform.presentation_support =
        (G_MAXUINT32, G_MAXUINT32) ∧
      ∃ st', _vulkan_swapper_retrieve_surface_properties split_platform unprobed =
          .ret true () none st' ∧
        calls_of .gst_vulkan_device_get_queue st'.vk.trace = [[0, 4294967295]] := by
  refine ⟨by decide, rfl, by decide, _, rfl, ?_⟩
  decide

/-! ## The row copy of the staging upload -/

/-- C8 (code defect): for the padded 2x2 frame (stride 16) and the tight
layout (pitch 8, size 16) every assertion of the row loop holds and the copy
completes, yet the byte at position 23 from the destination base, beyond the
reported size of 16, has been written: it was 0 and now holds source byte
31. -/
theorem row_copy_overrun :
    ∃ mem', upload_frame padded_frame tight_layout (fun _ => 0) = some mem' ∧
      tight_layout.size ≤ 23 ∧
      mem' (tight_layout.offset + 23) = padded_frame.data 31 ∧
      padded_frame.data 31 ≠ 0 := by
  refine ⟨_, rfl, ?_⟩
  decide

/-! ## Present mode and image count -/

theorem present_mode_loop_spec (modes : List Nat) (k : Nat) (hk : k ≤ modes.length) (pm : Nat)
    (hpm : pm ≠ VK_PRESENT_MODE_MAILBOX_KHR) :
    present_mode_loop modes modes.length k pm =
      if VK_PRESENT_MODE_MAILBOX_KHR ∈ modes.drop (modes.length - k) then
        VK_PRESENT_MODE_MAILBOX_KHR
      else if VK_PRESENT_MODE_IMMEDIATE_KHR ∈ modes.drop (modes.length - k) then
        VK_PRESENT_MODE_IMMEDIATE_KHR
      else pm := by
  induction k generalizing pm with
  | zero => simp [present_mode_loop]
  | succ k ih =>
    have hi : modes.length - (k + 1) < modes.length := by omega
    have hdrop : modes.drop (modes.length - (k + 1)) =
        modes[modes.length - (k + 1)] :: modes.drop (modes.length - k) := by
      rw [List.drop_eq_getElem_cons hi]
      congr 2
      omega
    have hget : modes.getD (modes.length - (k + 1)) 0 = modes[modes.length - (k + 1)] := by
      simp [List.getD_eq_getElem?_getD, List.getElem?_eq_getElem hi]
    unfold present_mode_loop
    simp only [hget, hdrop, List.mem_cons]
    have h3 : ¬ VK_PRESENT_MODE_MAILBOX_KHR = VK_PRESENT_MODE_IMMEDIATE_KHR := by decide
    by_cases h1 : modes[modes.length - (k + 1)] = VK_PRESENT_MODE_MAILBOX_KHR
    · simp [h1]
    · have h1' : ¬ VK_PRESENT_MODE_MAILBOX_KHR = modes[modes.length - (k + 1)] :=
        fun h => h1 h.symm
      by_cases h2 : modes[modes.length - (k + 1)] = VK_PRESENT_MODE_IMMEDIATE_KHR
      · rw [if_neg h1, if_pos ⟨hpm, h2⟩, ih (by omega) _ (by decide)]
        simp [h1', h2, h3]
      · have h2' : ¬ VK_PRESENT_MODE_IMMEDIATE_KHR = modes[modes.length - (k + 1)] :=
          fun h => h2 h.symm
        rw [if_neg h1, if_neg (by tauto), ih (by omega) _ hpm]
        simp [h1', h2']

/-- C9: for every swapper whose cached present modes are a list of
`n_surf_present_modes` entries (empty or not, in any order), the present mode
`_allocate_swapchain` selects is MAILBOX if the list contains MAILBOX,
otherwise IMMEDIATE if it contains IMMEDIATE, otherwise FIFO. -/
theorem select_present_mode_priority (s : GstVulkanSwapper)
    (hn : s.n_surf_present_modes = s.surf_present_modes.length) :
    select_present_mode s =
      if VK_PRESENT_MODE_MAILBOX_KHR ∈ s.surf_present_modes then VK_PRESENT_MODE_MAILBOX_KHR
      else if VK_PRESENT_MODE_IMMEDIATE_KHR ∈ s.surf_present_modes then
        VK_PRESENT_MODE_IMMEDIATE_KHR
      else VK_PRESENT_MODE_FIFO_KHR := by
  unfold select_present_mode
  rw [hn, present_mode_loop_spec _ _ (le_refl _) _ (by decide)]
  simp

/-- C9 (witness): the configured swapper caches FIFO, IMMEDIATE, MAILBOX in
this order and selects MAILBOX. -/
theorem select_present_mode_priority_witness :
    configured_swapper.n_surf_present_modes = configured_swapper.surf_present_modes.length ∧
      select_present_mode configured_swapper = VK_PRESENT_MODE_MAILBOX_KHR :=
  ⟨rfl, (select_present_mode_priority configured_swapper rfl).trans (by decide)⟩

/-- C10 (counterexample): for a surface reporting `minImageCount =
maxImageCount = 4294967295` the sum `minImageCount + 1` wraps in `guint32`
and the requested count is 0, below `minImageCount`. -/
theorem n_images_wanted_wraps :
    (4294967295 : Nat) < 2 ^ 32 ∧
      n_images_wanted ⟨4294967295, 4294967295, ⟨640, 480⟩, 1, 1, 18⟩ = 0 ∧
      ¬ (4294967295 ≤ n_images_wanted ⟨4294967295, 4294967295, ⟨640, 480⟩, 1, 1, 18⟩) := by
  decide

/-- C10 (amended): for every capability record with `minImageCount + 1 <
2 ^ 32` (and `minImageCount ≤ maxImageCount` whenever `maxImageCount > 0`),
the requested image count is `minImageCount + 1`, clamped down to
`maxImageCount` when `maxImageCount > 0`; it is at least `minImageCount`, and
at most `maxImageCount` when `maxImageCount > 0`. -/
theorem n_images_wanted_range (c : VkSurfaceCapabilitiesKHR)
    (hmin : c.minImageCount + 1 < 2 ^ 32)
    (hle : c.maxImageCount > 0 → c.minImageCount ≤ c.maxImageCount) :
    n_images_wanted c =
        (if c.maxImageCount > 0 ∧ c.minImageCount + 1 > c.maxImageCount then c.maxImageCount
         else c.minImageCount + 1) ∧
      c.minImageCount ≤ n_images_wanted c ∧
      (c.maxImageCount > 0 → n_images_wanted c ≤ c.maxImageCount) := by
  unfold n_images_wanted
  rw [Nat.mod_eq_of_lt hmin]
  dsimp only
  refine ⟨rfl, ?_, ?_⟩
  · split_ifs with h
    · exact hle h.1
    · omega
  · intro hpos
    split_ifs with h
    · exact le_refl _
    · push_neg at h
      exact h hpos

/-- C10 (witness): the sample surface (minimum 2, maximum 3) gets 3 images. -/
theorem n_images_wanted_range_witness :
    sample_caps.minImageCount + 1 < 2 ^ 32 ∧
      (sample_caps.maxImageCount > 0 → sample_caps.minImageCount ≤ sample_caps.maxImageCount) ∧
      n_images_wanted sample_caps = 3 ∧
      sample_caps.minImageCount ≤ n_images_wanted sample_caps ∧
      (sample_caps.maxImageCount > 0 → n_images_wanted sample_caps ≤ sample_caps.maxImageCount) :=
  ⟨by decide, by decide,
    (n_images_wanted_range sample_caps (by decide) (by decide)).1.trans (by decide),
    (n_images_wanted_range sample_caps (by decide) (by decide)).2⟩


/-! ## Footprints: what every run of a function leaves behind -/

theorem appended_refl (apis : List Api) (st : St) : appended apis st st := by
  unfold appended
  exact ⟨[], by simp, by simp⟩

theorem appended_log {apis : List Api} {st st' : St} {a : Api} {args : List Nat}
    (h : appended apis st st') (ha : a ∈ apis) : appended apis st (st'.log a args) := by
  unfold appended at *
  obtain ⟨T, hT, hm⟩ := h
  refine ⟨T ++ [⟨a, args⟩], by simp [hT], ?_⟩
  intro c hc
  rcases List.mem_append.1 hc with h1 | h1
  · exact hm c h1
  · simp at h1; subst h1; exact ha

theorem appended_create {apis : List Api} {st st' : St} {k : ResKind}
    (h : appended apis st st') : appended apis st (st'.create k) := by
  unfold appended at *
  exact h

theorem appended_release {apis : List Api} {st st' : St} {x : Nat}
    (h : appended apis st st') : appended apis st (st'.release x) := by
  unfold appended at *
  exact h

theorem appended_set {apis : List Api} {st st' : St} {f : GstVulkanSwapper → GstVulkanSwapper}
    (h : appended apis st st') : appended apis st (st'.set f) := by
  unfold appended at *
  exact h

theorem appended_trans {apis : List Api} {a b c : St} (h1 : appended apis a b)
    (h2 : appended apis b c) : appended apis a c := by
  unfold appended at *
  obtain ⟨T, hT, hm⟩ := h1
  obtain ⟨U, hU, hn⟩ := h2
  refine ⟨T ++ U, by simp [hU, hT], ?_⟩
  intro x hx
  rcases List.mem_append.1 hx with h | h
  · exact hm x h
  · exact hn x h

theorem appended_mono {apis apis' : List Api} {a b : St} (hsub : ∀ x ∈ apis, x ∈ apis')
    (h : appended apis a b) : appended apis' a b := by
  unfold appended at *
  obtain ⟨T, hT, hm⟩ := h
  exact ⟨T, hT, fun c hc => hsub _ (hm c hc)⟩

theorem appended_calls {apis : List Api} {a b : St} (h : appended apis a b) (api : Api)
    (hn : api ∉ apis) : calls_of api b.vk.trace = calls_of api a.vk.trace := by
  unfold appended at h
  obtain ⟨T, hT, hm⟩ := h
  rw [hT, calls_of_append]
  have : calls_of api T = [] := by
    unfold calls_of
    rw [List.filter_eq_nil_iff.2]
    · rfl
    · intro c hc
      have := hm c hc
      simp
      intro h
      exact hn (h ▸ this)
  simp [this]

theorem same_config_refl (st : St) : same_config st st := by
  simp [same_config]

theorem same_config_trans {a b c : St} (h1 : same_config a b) (h2 : same_config b c) :
    same_config a c := by
  unfold same_config at *
  simp only [h2.1, h2.2.1, h2.2.2.1, h2.2.2.2.1, h2.2.2.2.2.1, h2.2.2.2.2.2.1, h2.2.2.2.2.2.2.1,
    h2.2.2.2.2.2.2.2.1, h2.2.2.2.2.2.2.2.2.1, h2.2.2.2.2.2.2.2.2.2.1, h2.2.2.2.2.2.2.2.2.2.2.1,
    h2.2.2.2.2.2.2.2.2.2.2.2]
  exact h1

theorem not_usage_none : not_usage_error none := by
  simp [not_usage_error]

theorem not_usage_of_message (r : Int) (op : String)
    (h : op ≠ "Incorrect usage flags available for the swap images") :
    not_usage_error (some ⟨r, op⟩) := by
  unfold not_usage_error
  intro h1
  injection h1 with h1
  injection h1 with _ h2
  exact h h2

theorem set_image_layout_footprint (p : Platform) (st : St) (image : GstVulkanImageMemory)
    (l : Nat) :
    appended layout_apis st (_swapper_set_image_layout p st image l).st ∧
      (_swapper_set_image_layout p st image l).st.swapper = st.swapper ∧
      not_usage_error (_swapper_set_image_layout p st image l).error := by
  unfold _swapper_set_image_layout gst_vulkan_device_create_cmd_buffer _new_fence vk_call
    _swapper_set_image_layout_with_cmd
  simp only [gst_vulkan_error_to_g_error, op_error, St.result]
  repeat' (first | split_ifs | dsimp only)
  all_goals simp only [Res.st, Res.error, log_swapper, create_swapper, release_swapper, true_and]
  all_goals refine ⟨?_, ?_⟩
  all_goals first
    | exact not_usage_none
    | exact not_usage_of_message _ _ (by decide)
    | skip
  all_goals repeat (first
    | exact appended_refl _ _
    | apply appended_create
    | apply appended_release
    | apply appended_set
    | (refine appended_log ?_ (by decide)))
theorem wrap_images_loop_footprint (p : Platform) (format width height usage : Nat)
    (imgs : List Nat) :
    ∀ (i : Nat) (st : St),
      appended images_apis st (wrap_images_loop p format width height usage imgs i st).st ∧
        same_config st (wrap_images_loop p format width height usage imgs i st).st ∧
        not_usage_error (wrap_images_loop p format width height usage imgs i st).error := by
  induction imgs with
  | nil =>
    intro i st
    simp only [wrap_images_loop, Res.st, Res.error]
    exact ⟨appended_refl _ _, same_config_refl _, not_usage_none⟩
  | cons img rest ih =>
    intro i st
    simp only [wrap_images_loop]
    have hl := set_image_layout_footprint p
      (((st.log .gst_vulkan_image_memory_wrapped [img, format, width, height, usage]).create
        .chain_image).set fun s => set_swap_chain_image s i
          ⟨(st.log .gst_vulkan_image_memory_wrapped [img, format, width, height, usage]).fresh,
            img, format, width, height⟩)
      ⟨(st.log .gst_vulkan_image_memory_wrapped [img, format, width, height, usage]).fresh,
        img, format, width, height⟩ VK_IMAGE_LAYOUT_COLOR_ATTACHMENT_OPTIMAL
    revert hl
    generalize _swapper_set_image_layout p _ _ _ = r
    intro hl
    have h0 : appended images_apis st
        (((st.log .gst_vulkan_image_memory_wrapped [img, format, width, height, usage]).create
          .chain_image).set fun s => set_swap_chain_image s i
            ⟨(st.log .gst_vulkan_image_memory_wrapped [img, format, width, height, usage]).fresh,
              img, format, width, height⟩) :=
      appended_set (appended_create (appended_log (appended_refl _ _) (by decide)))
    have hsub : ∀ x ∈ layout_apis, x ∈ images_apis := by decide
    have h1 := appended_trans h0 (appended_mono hsub hl.1)
    have hc : same_config st r.st := by
      unfold same_config
      rw [hl.2.1]
      simp [set_swap_chain_image]
    cases r with
    | abort s => exact ⟨h1, hc, not_usage_none⟩
    | ret ok out e s =>
      cases ok with
      | false => exact ⟨h1, hc, hl.2.2⟩
      | true =>
        dsimp only
        obtain ⟨i1, i2, i3⟩ := ih (i + 1) s
        exact ⟨appended_trans h1 i1, same_config_trans hc i2, i3⟩
theorem allocate_images_footprint (p : Platform) (st : St) (format usage : Nat)
    (dims : VkExtent2D) :
    appended images_apis st (allocate_images p st format usage dims).st ∧
      same_config st (allocate_images p st format usage dims).st ∧
      not_usage_error (allocate_images p st format usage dims).error := by
  unfold allocate_images
  simp only [gst_vulkan_error_to_g_error]
  repeat' (first | split_ifs | dsimp only)
  all_goals first
    | exact ⟨appended_log (appended_refl _ _) (by decide), by simp [same_config, Res.st],
        not_usage_of_message _ _ (by decide)⟩
    | exact ⟨appended_log (appended_set (appended_log (appended_refl _ _) (by decide)))
        (by decide), by simp [same_config, Res.st], not_usage_of_message _ _ (by decide)⟩
    | exact ⟨appended_trans (appended_set (appended_log (appended_set (appended_log
          (appended_refl _ _) (by decide))) (by decide)))
          (wrap_images_loop_footprint _ _ _ _ _ _ _ _).1,
        same_config_trans (by simp [same_config]) (wrap_images_loop_footprint _ _ _ _ _ _ _ _).2.1,
        (wrap_images_loop_footprint _ _ _ _ _ _ _ _).2.2⟩

theorem ensure_surface_footprint (p : Platform) (st : St) :
    appended [.gst_vulkan_window_get_surface] st (_vulkan_swapper_ensure_surface p st).st ∧
      (_vulkan_swapper_ensure_surface p st).st.swapper =
        { st.swapper with surface := (_vulkan_swapper_ensure_surface p st).st.swapper.surface } ∧
      not_usage_error (_vulkan_swapper_ensure_surface p st).error := by
  unfold _vulkan_swapper_ensure_surface
  repeat' (first | split_ifs | dsimp only)
  all_goals simp only [Res.st, Res.error]
  · exact ⟨appended_log (appended_refl _ _) (by decide), rfl,
      not_usage_of_message _ _ (by decide)⟩
  · exact ⟨appended_set (appended_create (appended_log (appended_refl _ _) (by decide))), rfl,
      not_usage_none⟩
  · exact ⟨appended_refl _ _, trivial, not_usage_none⟩

/-! ## Chain allocation: the usage flags and the old chain (C11, C12) -/

theorem appended_count {apis : List Api} {a b : St} (h : appended apis a b) (api : Api)
    (hn : api ∉ apis) : b.count api = a.count api := by
  rw [count_eq, count_eq, appended_calls h api hn]

theorem allocate_images_footprint_run (p : Platform) {st : St} {format usage : Nat}
    {dims : VkExtent2D} {r : Res Unit} (hr : allocate_images p st format usage dims = r) :
    appended images_apis st r.st ∧ same_config st r.st ∧ not_usage_error r.error := by
  subst hr
  exact allocate_images_footprint p st format usage dims

theorem ensure_surface_returns (p : Platform) (st : St) :
    ∃ ok e s, _vulkan_swapper_ensure_surface p st = .ret ok () e s := by
  unfold _vulkan_swapper_ensure_surface
  repeat' (first | split_ifs | dsimp only)
  all_goals exact ⟨_, _, _, rfl⟩

/-- C11: once the surface exists and the capability query of
`_allocate_swapchain` succeeded, the allocation fails with the
"Incorrect usage flags" error, without any call of `CreateSwapchainKHR`,
exactly when the supported usage flags lack the transfer-destination bit or
the color-attachment bit; when both are there, the chain is requested with
the usage transfer-destination | color-attachment. -/
theorem usage_flags_required (p : Platform) (st st1 : St)
    (hs : _vulkan_swapper_ensure_surface p st = .ret true () none st1)
    (hq : 0 ≤ p.result .GetPhysicalDeviceSurfaceCapabilitiesKHR
      (st1.count .GetPhysicalDeviceSurfaceCapabilitiesKHR)) :
    ((∃ s, _allocate_swapchain p st = .ret false ()
          (some ⟨VK_ERROR_INITIALIZATION_FAILED,
            "Incorrect usage flags available for the swap images"⟩) s ∧
        calls_of .CreateSwapchainKHR s.vk.trace = calls_of .CreateSwapchainKHR st.vk.trace) ↔
      ((p.surf_props (st1.count .GetPhysicalDeviceSurfaceCapabilitiesKHR)).supportedUsageFlags &&&
          VK_IMAGE_USAGE_TRANSFER_DST_BIT = 0 ∨
        (p.surf_props (st1.count .GetPhysicalDeviceSurfaceCapabilitiesKHR)).supportedUsageFlags &&&
          VK_IMAGE_USAGE_COLOR_ATTACHMENT_BIT = 0)) ∧
    ((p.surf_props (st1.count .GetPhysicalDeviceSurfaceCapabilitiesKHR)).supportedUsageFlags &&&
        VK_IMAGE_USAGE_TRANSFER_DST_BIT ≠ 0 →
      (p.surf_props (st1.count .GetPhysicalDeviceSurfaceCapabilitiesKHR)).supportedUsageFlags &&&
        VK_IMAGE_USAGE_COLOR_ATTACHMENT_BIT ≠ 0 →
      calls_of .CreateSwapchainKHR (_allocate_swapchain p st).st.vk.trace =
        calls_of .CreateSwapchainKHR st.vk.trace ++
          [[st.swapper.swap_chain,
            n_images_wanted (p.surf_props (st1.count .GetPhysicalDeviceSurfaceCapabilitiesKHR)),
            _vk_format_from_video_format st.swapper.v_info.format,
            _vk_color_space_from_video_info st.swapper.v_info,
            (swapchain_dims
              (p.surf_props (st1.count .GetPhysicalDeviceSurfaceCapabilitiesKHR))).width,
            (swapchain_dims
              (p.surf_props (st1.count .GetPhysicalDeviceSurfaceCapabilitiesKHR))).height,
            VK_IMAGE_USAGE_TRANSFER_DST_BIT ||| VK_IMAGE_USAGE_COLOR_ATTACHMENT_BIT,
            pre_transform (p.surf_props (st1.count .GetPhysicalDeviceSurfaceCapabilitiesKHR)),
            select_present_mode st.swapper, 0]]) := by
  obtain ⟨he1, he2, -⟩ := ensure_surface_footprint p st
  rw [hs] at he1 he2
  simp only [Res.st] at he1 he2
  have hcalls : calls_of .CreateSwapchainKHR st1.vk.trace =
      calls_of .CreateSwapchainKHR st.vk.trace := appended_calls he1 _ (by decide)
  have hchain : st1.swapper.swap_chain = st.swapper.swap_chain := by rw [he2]
  have hinfo : st1.swapper.v_info = st.swapper.v_info := by rw [he2]
  have hpm : st1.swapper.surf_present_modes = st.swapper.surf_present_modes := by rw [he2]
  have hnpm : st1.swapper.n_surf_present_modes = st.swapper.n_surf_present_modes := by rw [he2]
  have hnc : ¬ p.result .GetPhysicalDeviceSurfaceCapabilitiesKHR
      (st1.count .GetPhysicalDeviceSurfaceCapabilitiesKHR) < 0 := not_lt.2 hq
  unfold _allocate_swapchain
  rw [hs]
  simp only [gst_vulkan_error_to_g_error, St.result, set_swapper, log_swapper, count_set,
    count_log, create_swapper, hchain, hinfo, select_present_mode, hpm, hnpm, if_false, reduceCtorEq, hnc, ↓reduceIte]
  by_cases hd : (p.surf_props (st1.count
      .GetPhysicalDeviceSurfaceCapabilitiesKHR)).supportedUsageFlags &&&
        VK_IMAGE_USAGE_TRANSFER_DST_BIT = 0
  · simp only [hd, ↓reduceIte, Res.st, log_trace, set_vk, true_or, iff_true, ne_eq,
      not_true_eq_false, false_implies, and_true]
    exact ⟨_, rfl, by simp [hcalls]⟩
  · simp only [hd, ↓reduceIte]
    by_cases hcol : (p.surf_props (st1.count
        .GetPhysicalDeviceSurfaceCapabilitiesKHR)).supportedUsageFlags &&&
          VK_IMAGE_USAGE_COLOR_ATTACHMENT_BIT = 0
    · simp only [hcol, ↓reduceIte, Res.st, log_trace, set_vk, or_true, iff_true, ne_eq,
        not_true_eq_false, false_implies, implies_true, and_true]
      exact ⟨_, rfl, by simp [hcalls]⟩
    · simp only [hcol, ↓reduceIte, or_self, iff_false, ne_eq, not_false_eq_true, true_implies]
      by_cases hcr : p.result .CreateSwapchainKHR (st1.count .CreateSwapchainKHR) < 0
      · simp only [hcr, ↓reduceIte, Res.st, log_trace, set_vk, calls_of_append, hcalls]
        refine ⟨?_, by simp⟩
        rintro ⟨s, h, -⟩
        injection h with _ _ h _
        injection h with h
        injection h with _ h
        revert h
        decide
      · simp only [hcr, ↓reduceIte]
        generalize hr : allocate_images p _ _ _ _ = R
        obtain ⟨hi, -, hn⟩ := allocate_images_footprint_run p hr
        refine ⟨?_, ?_⟩
        · rintro ⟨s, h, -⟩
          rw [h] at hn
          exact hn rfl
        · rw [appended_calls hi _ (by decide)]
          by_cases hold : st.swapper.swap_chain ≠ VK_NULL_HANDLE
          · simp [if_pos hold, hcalls, calls_of_append]
          · simp [if_neg hold, hcalls, calls_of_append]

theorem usage_flags_required_witness :
    _vulkan_swapper_ensure_surface no_transfer_dst configured = .ret true () none configured ∧
      0 ≤ no_transfer_dst.result .GetPhysicalDeviceSurfaceCapabilitiesKHR
        (configured.count .GetPhysicalDeviceSurfaceCapabilitiesKHR) ∧
      (no_transfer_dst.surf_props
        (configured.count .GetPhysicalDeviceSurfaceCapabilitiesKHR)).supportedUsageFlags &&&
          VK_IMAGE_USAGE_TRANSFER_DST_BIT = 0 ∧
      ∃ s, _allocate_swapchain no_transfer_dst configured = .ret false ()
          (some ⟨VK_ERROR_INITIALIZATION_FAILED,
            "Incorrect usage flags available for the swap images"⟩) s ∧
        calls_of .CreateSwapchainKHR s.vk.trace =
          calls_of .CreateSwapchainKHR configured.vk.trace :=
  ⟨rfl, by decide, by decide,
    (usage_flags_required no_transfer_dst configured configured rfl (by decide)).1.2
      (Or.inl (by decide))⟩

/-- C12: every run of `_allocate_swapchain` has one of three shapes. It
fails before `CreateSwapchainKHR` is called, and then calls neither
`CreateSwapchainKHR` nor `DestroySwapchainKHR`; or it calls
`CreateSwapchainKHR` with the previous chain as first argument, the call
fails, and nothing is destroyed; or that call succeeds, and then
`DestroySwapchainKHR` is called on the previous chain exactly once, right
after it, when the previous chain is not `VK_NULL_HANDLE`, and not at all
otherwise. -/
theorem old_chain_destroyed_after_create (p : Platform) (st : St) :
    ∃ A B args,
      (∀ c ∈ A ++ B, c.api ≠ .CreateSwapchainKHR ∧ c.api ≠ .DestroySwapchainKHR) ∧
      (((∃ e s, _allocate_swapchain p st = .ret false () e s) ∧
          (_allocate_swapchain p st).st.vk.trace = st.vk.trace ++ A) ∨
        (p.result .CreateSwapchainKHR (st.count .CreateSwapchainKHR) < 0 ∧
          (∃ e s, _allocate_swapchain p st = .ret false () e s) ∧
          (_allocate_swapchain p st).st.vk.trace =
            st.vk.trace ++ A ++ [⟨.CreateSwapchainKHR, st.swapper.swap_chain :: args⟩]) ∨
        (0 ≤ p.result .CreateSwapchainKHR (st.count .CreateSwapchainKHR) ∧
          (_allocate_swapchain p st).st.vk.trace =
            st.vk.trace ++ A ++ [⟨.CreateSwapchainKHR, st.swapper.swap_chain :: args⟩] ++
              (if st.swapper.swap_chain ≠ VK_NULL_HANDLE then
                [⟨.DestroySwapchainKHR, [st.swapper.swap_chain]⟩] else []) ++ B)) := by
  obtain ⟨he1, he2, -⟩ := ensure_surface_footprint p st
  obtain ⟨ok, e0, st1, hens⟩ := ensure_surface_returns p st
  unfold _allocate_swapchain
  rw [hens] at he1 he2 ⊢
  simp only [Res.st] at he1 he2
  have hcnt : st1.count .CreateSwapchainKHR = st.count .CreateSwapchainKHR :=
    appended_count he1 _ (by decide)
  have hchain : st1.swapper.swap_chain = st.swapper.swap_chain := by rw [he2]
  unfold appended at he1
  obtain ⟨T0, hT0, hm0⟩ := he1
  have hA0 : ∀ c ∈ T0, c.api ≠ .CreateSwapchainKHR ∧ c.api ≠ .DestroySwapchainKHR := by
    intro c hc
    have := hm0 c hc
    simp at this
    simp [this]
  cases ok with
  | false =>
    refine ⟨T0, [], [], by simpa using hA0, Or.inl ⟨⟨_, _, rfl⟩, ?_⟩⟩
    simp [Res.st, hT0]
  | true =>
    have hA1 : ∀ c ∈ (T0 ++ [⟨.GetPhysicalDeviceSurfaceCapabilitiesKHR, [st1.swapper.surface]⟩])
        ++ [], c.api ≠ .CreateSwapchainKHR ∧ c.api ≠ .DestroySwapchainKHR := by
      intro c hc
      simp only [List.append_nil, List.mem_append, List.mem_singleton] at hc
      rcases hc with h | h
      · exact hA0 c h
      · subst h
        exact ⟨by simp, by simp⟩
    simp only [gst_vulkan_error_to_g_error, St.result, set_swapper, log_swapper, count_set,
      count_log, create_swapper, hcnt, hchain, if_false, reduceCtorEq]
    by_cases hc : p.result .GetPhysicalDeviceSurfaceCapabilitiesKHR
        (st1.count .GetPhysicalDeviceSurfaceCapabilitiesKHR) < 0
    · simp only [hc, ↓reduceIte, Res.st, log_trace, hT0]
      exact ⟨_, [], [], hA1, Or.inl ⟨⟨_, _, rfl⟩, by simp⟩⟩
    · simp only [hc, ↓reduceIte]
      by_cases hd : (p.surf_props (st1.count
          .GetPhysicalDeviceSurfaceCapabilitiesKHR)).supportedUsageFlags &&&
            VK_IMAGE_USAGE_TRANSFER_DST_BIT = 0
      · simp only [hd, ↓reduceIte, Res.st, log_trace, set_vk, hT0]
        exact ⟨_, [], [], hA1, Or.inl ⟨⟨_, _, rfl⟩, by simp⟩⟩
      · simp only [hd, ↓reduceIte]
        by_cases hcol : (p.surf_props (st1.count
            .GetPhysicalDeviceSurfaceCapabilitiesKHR)).supportedUsageFlags &&&
              VK_IMAGE_USAGE_COLOR_ATTACHMENT_BIT = 0
        · simp only [hcol, ↓reduceIte, Res.st, log_trace, set_vk, hT0]
          exact ⟨_, [], [], hA1, Or.inl ⟨⟨_, _, rfl⟩, by simp⟩⟩
        · simp only [hcol, ↓reduceIte]
          by_cases hcr : p.result .CreateSwapchainKHR (st.count .CreateSwapchainKHR) < 0
          · simp only [hcr, ↓reduceIte, Res.st, log_trace, set_vk, hT0]
            exact ⟨_, [], _, hA1, Or.inr (Or.inl ⟨trivial, ⟨_, _, rfl⟩,
              by simp only [List.append_assoc]; rfl⟩)⟩
          · have hcr0 : 0 ≤ p.result .CreateSwapchainKHR (st.count .CreateSwapchainKHR) :=
              not_lt.1 hcr
            have hAB : ∀ T : List Call, (∀ c ∈ T, c.api ∈ images_apis) →
                ∀ c ∈ (T0 ++ [⟨.GetPhysicalDeviceSurfaceCapabilitiesKHR, [st1.swapper.surface]⟩])
                  ++ T, c.api ≠ .CreateSwapchainKHR ∧ c.api ≠ .DestroySwapchainKHR := by
              intro T hT c hc
              rcases List.mem_append.1 hc with h | h
              · exact hA1 c (by simpa using h)
              · have := hT c h
                constructor
                · intro h1
                  rw [h1] at this
                  revert this
                  decide
                · intro h1
                  rw [h1] at this
                  revert this
                  decide
            by_cases hold : st.swapper.swap_chain ≠ VK_NULL_HANDLE
            · simp only [hcr, if_pos hold, ↓reduceIte]
              generalize hr : allocate_images p _ _ _ _ = R
              obtain ⟨hi, -, -⟩ := allocate_images_footprint_run p hr
              unfold appended at hi
              obtain ⟨TB, hTB, hmB⟩ := hi
              simp only [log_trace, set_vk, create_trace, release_trace, hT0] at hTB
              exact ⟨_, TB, _, hAB TB hmB, Or.inr (Or.inr ⟨hcr0,
                by rw [hTB]; simp only [List.append_assoc]; rfl⟩)⟩
            · simp only [hcr, if_neg hold, ↓reduceIte]
              generalize hr : allocate_images p _ _ _ _ = R
              obtain ⟨hi, -, -⟩ := allocate_images_footprint_run p hr
              unfold appended at hi
              obtain ⟨TB, hTB, hmB⟩ := hi
              simp only [log_trace, set_vk, create_trace, release_trace, hT0] at hTB
              exact ⟨_, TB, _, hAB TB hmB, Or.inr (Or.inr ⟨hcr0,
                by rw [hTB]; simp only [List.append_assoc, List.nil_append]; rfl⟩)⟩

/-! ## The copy region (C13) -/

theorem steady_helpers : helpers_succeed steady := by
  intro api k _ _
  simp [steady, sample_platform]

/-- C13: on a run of `_build_render_buffer_cmd` in which every helper call
succeeds and the frame is mapped with the configured size, the staging image
is allocated with the size of the frame and exactly one `vkCmdCopyImage` is
recorded: both offsets are (0, 0, 0) and the extent is
(min(cw, fw), min(ch, fh), 1) for a chain image of extent (cw, ch) and a
frame of size (fw, fh), so the region lies inside the chain image and inside
the staging image. -/
theorem copy_region_inside_images (p : Platform) (hp : helpers_succeed p) (hf : rows_fit p)
    (st : St) (swap_idx buffer : Nat) (cd : cmd_data) (arr : List GstVulkanImageMemory)
    (hidx : swap_idx < st.swapper.n_swap_chain_images)
    (harr : st.swapper.swap_chain_images = some arr)
    (hmem : (arr.getD swap_idx null_image).mem ≠ 0)
    (hw : (p.vframe (st.count .gst_video_frame_map)).width = st.swapper.v_info.width)
    (hh : (p.vframe (st.count .gst_video_frame_map)).height = st.swapper.v_info.height) :
    ∃ cd' st' cmd staging,
      _build_render_buffer_cmd p st swap_idx buffer cd = .ret true cd' none st' ∧
      calls_of .gst_vulkan_image_memory_alloc st'.vk.trace =
        calls_of .gst_vulkan_image_memory_alloc st.vk.trace ++
          [[(arr.getD swap_idx null_image).format, st.swapper.v_info.width,
            st.swapper.v_info.height]] ∧
      calls_of .vkCmdCopyImage st'.vk.trace =
        calls_of .vkCmdCopyImage st.vk.trace ++
          [[cmd, staging, (arr.getD swap_idx null_image).image, 0, 0, 0, 0, 0, 0,
            min (arr.getD swap_idx null_image).width st.swapper.v_info.width,
            min (arr.getD swap_idx null_image).height st.swapper.v_info.height, 1]] ∧
      0 + min (arr.getD swap_idx null_image).width st.swapper.v_info.width ≤
        (arr.getD swap_idx null_image).width ∧
      0 + min (arr.getD swap_idx null_image).height st.swapper.v_info.height ≤
        (arr.getD swap_idx null_image).height ∧
      0 + min (arr.getD swap_idx null_image).width st.swapper.v_info.width ≤
        st.swapper.v_info.width ∧
      0 + min (arr.getD swap_idx null_image).height st.swapper.v_info.height ≤
        st.swapper.v_info.height := by
  have n1 := helpers_not_neg_at hp .gst_vulkan_device_create_cmd_buffer (by decide) (by decide)
  have n2 := helpers_not_neg_at hp .gst_video_frame_map (by decide) (by decide)
  have n3 := helpers_not_neg_at hp .gst_vulkan_image_memory_alloc (by decide) (by decide)
  have n4 := helpers_not_neg_at hp .gst_memory_map (by decide) (by decide)
  have e1 := helpers_no_error_at hp .vkBeginCommandBuffer (by decide) (by decide)
  have e2 := helpers_no_error_at hp .vkEndCommandBuffer (by decide) (by decide)
  have e3 := helpers_no_error_at hp .vkCreateFence (by decide) (by decide)
  unfold _build_render_buffer_cmd
  simp only [hidx, not_true_eq_false, if_false, harr, gst_vulkan_device_create_cmd_buffer,
    St.result, n1, n2, n3, n4, hmem]
  generalize hup : upload_frame _ _ _ = up
  obtain ⟨mem', rfl⟩ := upload_frame_run (hf _ _) hup
  simp only [record_render_buffer_cmd, vk_call, St.result, e1, e2, e3, _new_fence,
    _swapper_set_image_layout_with_cmd]
  refine ⟨_, _, st.vk.next + 1, st.vk.next + 2, rfl, ?_, ?_, ?_, ?_, ?_, ?_⟩
  · simp [hw, hh]
  · simp
  · simp
  · simp
  · simp
  · simp

/-- C13 (witness): the configured presenter, image index 1 and a 4x4 frame. -/
theorem copy_region_inside_images_witness :
    helpers_succeed steady ∧ rows_fit steady ∧
      (steady.vframe (configured.count .gst_video_frame_map)).width =
        configured.swapper.v_info.width ∧
      (steady.vframe (configured.count .gst_video_frame_map)).height =
        configured.swapper.v_info.height ∧
      ∃ cd' st' cmd staging,
        _build_render_buffer_cmd steady configured 1 9 ⟨0, 0, false, 0⟩ = .ret true cd' none st' ∧
        calls_of .gst_vulkan_image_memory_alloc st'.vk.trace = [[44, 4, 4]] ∧
        calls_of .vkCmdCopyImage st'.vk.trace = [[cmd, staging, 101, 0, 0, 0, 0, 0, 0, 4, 4, 1]] := by
  have hf : rows_fit steady := fun _ _ => (by decide : 4 * 16 ≤ 64)
  obtain ⟨cd', st', cmd, staging, h1, h2, h3, -⟩ :=
    copy_region_inside_images steady steady_helpers hf configured 1 9 ⟨0, 0, false, 0⟩
      [⟨4, 100, 44, 4, 4⟩, ⟨5, 101, 44, 4, 4⟩] (by decide) rfl (by decide) rfl rfl
  exact ⟨steady_helpers, hf, rfl, rfl, cd', st', cmd, staging, h1, h2, h3⟩

/-! ## What a rebuild fetches again (C14) -/

theorem unref_images_loop_appended (images : List GstVulkanImageMemory) (n k : Nat) (st : St) :
    appended [.gst_memory_unref] st (unref_images_loop images n k st) := by
  induction k generalizing st with
  | zero => exact appended_refl _ _
  | succ k ih =>
    unfold unref_images_loop
    simp only
    split_ifs with h
    · exact appended_trans (appended_release (appended_log (appended_refl _ _) (by decide)))
        (ih _)
    · exact ih st

theorem retrieve_present_modes_appended (p : Platform) (st : St) :
    appended retrieve_apis st (retrieve_present_modes p st).st := by
  unfold retrieve_present_modes
  simp only [gst_vulkan_error_to_g_error]
  repeat' (first | split_ifs | dsimp only)
  all_goals simp only [Res.st]
  all_goals repeat (first
    | exact appended_refl _ _
    | apply appended_create
    | apply appended_release
    | apply appended_set
    | (refine appended_log ?_ (by decide)))

theorem retrieve_formats_appended (p : Platform) (st : St) :
    appended retrieve_apis st (retrieve_formats p st).st := by
  unfold retrieve_formats
  simp only [gst_vulkan_error_to_g_error]
  repeat' (first | split_ifs | dsimp only)
  all_goals first
    | exact appended_trans (by
        repeat (first
          | exact appended_refl _ _
          | apply appended_create
          | apply appended_release
          | apply appended_set
          | (refine appended_log ?_ (by decide)))) (retrieve_present_modes_appended p _)
    | (simp only [Res.st]
       repeat (first
        | exact appended_refl _ _
        | apply appended_create
        | apply appended_release
        | apply appended_set
        | (refine appended_log ?_ (by decide))))

theorem retrieve_surface_properties_appended (p : Platform) (st : St) :
    appended retrieve_apis st (_vulkan_swapper_retrieve_surface_properties p st).st := by
  obtain ⟨he1, -, -⟩ := ensure_surface_footprint p st
  obtain ⟨ok, e0, st1, hens⟩ := ensure_surface_returns p st
  rw [hens] at he1
  simp only [Res.st] at he1
  have he : appended retrieve_apis st st1 := appended_mono (by decide) he1
  unfold _vulkan_swapper_retrieve_surface_properties
  rw [hens]
  cases ok with
  | false =>
    split_ifs
    · exact appended_refl _ _
    · exact he
  | true =>
    repeat' (first | split_ifs | dsimp only)
    · exact appended_refl _ _
    · exact he
    · simp only [Res.st]
      exact appended_set (appended_log he (by decide))
    · exact appended_trans (appended_set (appended_create (appended_log he (by decide))))
        (retrieve_formats_appended p _)
theorem release_attempt_appended (st : St) (semaphore : Nat) (cd : cmd_data) :
    appended release_apis st (release_attempt st semaphore cd) := by
  unfold release_attempt
  repeat' (first | split_ifs | dsimp only)
  all_goals repeat (first
    | exact appended_refl _ _
    | apply appended_create
    | apply appended_release
    | apply appended_set
    | (refine appended_log ?_ (by decide)))

/-- C15: in any pass through `reacquire:` in which the semaphore was
created, a negative result of `AcquireNextImageKHR` other than out-of-date
ends the call at the error exit with that code and the name
`vkAcquireNextImageKHR`, after one acquisition and without a call of
`CreateSwapchainKHR`; a negative result of `QueuePresentKHR` other than
out-of-date ends it with that code and the name `vkQueuePresentKHR`, without
a further acquisition or a rebuild; and when the rebuild made for an
out-of-date acquisition or presentation fails, the call ends at the error
exit with the error of the rebuild and acquires nothing more. One unit of
fuel is enough in each case: the label is not reached again. -/
theorem only_out_of_date_is_retried (p : Platform) (buffer fuel : Nat) (st : St)
    (semaphore : Nat) (cd : cmd_data)
    (hsem : 0 ≤ p.result .vkCreateSemaphore (st.count .vkCreateSemaphore)) :
    (∀ c, p.result .AcquireNextImageKHR (st.count .AcquireNextImageKHR) = c → c < 0 →
      c ≠ VK_ERROR_OUT_OF_DATE_KHR →
      reacquire p buffer (fuel + 1) st semaphore cd =
          error_exit
            (((st.log .vkCreateSemaphore []).create .semaphore).log .AcquireNextImageKHR
              [st.swapper.swap_chain, st.vk.next + 1])
            (st.vk.next + 1) cd (some ⟨c, "vkAcquireNextImageKHR"⟩) ∧
        calls_of .AcquireNextImageKHR (reacquire p buffer (fuel + 1) st semaphore cd).st.vk.trace =
          calls_of .AcquireNextImageKHR st.vk.trace ++ [[st.swapper.swap_chain, st.vk.next + 1]] ∧
        calls_of .CreateSwapchainKHR (reacquire p buffer (fuel + 1) st semaphore cd).st.vk.trace =
          calls_of .CreateSwapchainKHR st.vk.trace) ∧
    (p.result .AcquireNextImageKHR (st.count .AcquireNextImageKHR) = VK_ERROR_OUT_OF_DATE_KHR →
      ∀ e s, _swapchain_resize p
          (((((st.log .vkCreateSemaphore []).create .semaphore).log .AcquireNextImageKHR
            [st.swapper.swap_chain, st.vk.next + 1]).log .vkDestroySemaphore
              [st.vk.next + 1]).release (st.vk.next + 1)) = .ret false () e s →
        reacquire p buffer (fuel + 1) st semaphore cd = error_exit s (st.vk.next + 1) cd e ∧
        calls_of .AcquireNextImageKHR (reacquire p buffer (fuel + 1) st semaphore cd).st.vk.trace =
          calls_of .AcquireNextImageKHR s.vk.trace) ∧
    (0 ≤ p.result .AcquireNextImageKHR (st.count .AcquireNextImageKHR) →
      ∀ cd1 st5, _build_render_buffer_cmd p
          (((st.log .vkCreateSemaphore []).create .semaphore).log .AcquireNextImageKHR
            [st.swapper.swap_chain, st.vk.next + 1])
          (p.swap_idx (st.count .AcquireNextImageKHR)) buffer cd = .ret true cd1 none st5 →
        st5.swapper.queue ≠ 0 →
        0 ≤ p.result .vkQueueSubmit (st5.count .vkQueueSubmit) →
        (∀ c, p.result .QueuePresentKHR (st5.count .QueuePresentKHR) = c → c < 0 →
          c ≠ VK_ERROR_OUT_OF_DATE_KHR →
          reacquire p buffer (fuel + 1) st semaphore cd =
              error_exit
                ((st5.log .vkQueueSubmit [st5.swapper.queue, cd1.cmd, cd1.fence]).log
                  .QueuePresentKHR [st5.swapper.queue, st5.swapper.swap_chain,
                    p.swap_idx (st.count .AcquireNextImageKHR), st.vk.next + 1])
                (st.vk.next + 1) cd1 (some ⟨c, "vkQueuePresentKHR"⟩) ∧
            calls_of .AcquireNextImageKHR
                (reacquire p buffer (fuel + 1) st semaphore cd).st.vk.trace =
              calls_of .AcquireNextImageKHR st5.vk.trace ∧
            calls_of .CreateSwapchainKHR
                (reacquire p buffer (fuel + 1) st semaphore cd).st.vk.trace =
              calls_of .CreateSwapchainKHR st5.vk.trace) ∧
        (p.result .QueuePresentKHR (st5.count .QueuePresentKHR) = VK_ERROR_OUT_OF_DATE_KHR →
          ∀ e s, _swapchain_resize p
              ((st5.log .vkQueueSubmit [st5.swapper.queue, cd1.cmd, cd1.fence]).log
                .QueuePresentKHR [st5.swapper.queue, st5.swapper.swap_chain,
                  p.swap_idx (st.count .AcquireNextImageKHR), st.vk.next + 1]) =
                .ret false () e s →
            reacquire p buffer (fuel + 1) st semaphore cd = error_exit s (st.vk.next + 1) cd1 e ∧
            calls_of .AcquireNextImageKHR
                (reacquire p buffer (fuel + 1) st semaphore cd).st.vk.trace =
              calls_of .AcquireNextImageKHR s.vk.trace)) := by
  have hs := no_error_of_nonneg hsem "vkCreateSemaphore"
  have hrel : ∀ (s : St) (sem : Nat) (c : cmd_data) (api : Api), api ∉ release_apis →
      calls_of api (release_attempt s sem c).vk.trace = calls_of api s.vk.trace :=
    fun s sem c api h => appended_calls (release_attempt_appended s sem c) api h
  refine ⟨?_, ?_, ?_⟩
  · intro c hc hneg hood
    have hA : reacquire p buffer (fuel + 1) st semaphore cd =
        error_exit
          (((st.log .vkCreateSemaphore []).create .semaphore).log .AcquireNextImageKHR
            [st.swapper.swap_chain, st.vk.next + 1])
          (st.vk.next + 1) cd (some ⟨c, "vkAcquireNextImageKHR"⟩) := by
      have he : gst_vulkan_error_to_g_error c "vkAcquireNextImageKHR" =
          some ⟨c, "vkAcquireNextImageKHR"⟩ := by
        simp [gst_vulkan_error_to_g_error, hneg]
      rw [reacquire]
      simp only [St.result, hs, count_create, count_log, reduceCtorEq, if_false, hc, hood,
        he, fresh_eq, log_next, create_swapper, log_swapper]
    rw [hA]
    refine ⟨rfl, ?_, ?_⟩
    · simp only [error_exit, Outcome.st]
      rw [hrel _ _ _ _ (by decide)]
      simp
    · simp only [error_exit, Outcome.st]
      rw [hrel _ _ _ _ (by decide)]
      simp
  · intro hood e s hres
    have hC : reacquire p buffer (fuel + 1) st semaphore cd =
        error_exit s (st.vk.next + 1) cd e := by
      rw [reacquire]
      simp only [St.result, hs, count_create, count_log, reduceCtorEq, if_false, hood,
        if_true, fresh_eq, log_next, create_swapper, log_swapper, hres]
    rw [hC]
    refine ⟨rfl, ?_⟩
    simp only [error_exit, Outcome.st]
    rw [hrel _ _ _ _ (by decide)]
  · intro hacq cd1 st5 hbuild hq hsub
    have hnood := not_out_of_date hacq
    have hna := no_error_of_nonneg hacq "vkAcquireNextImageKHR"
    have hnsub := no_error_of_nonneg hsub "vkQueueSubmit"
    refine ⟨?_, ?_⟩
    · intro c hc hneg hood
      have hB : reacquire p buffer (fuel + 1) st semaphore cd =
          error_exit
            ((st5.log .vkQueueSubmit [st5.swapper.queue, cd1.cmd, cd1.fence]).log
              .QueuePresentKHR [st5.swapper.queue, st5.swapper.swap_chain,
                p.swap_idx (st.count .AcquireNextImageKHR), st.vk.next + 1])
            (st.vk.next + 1) cd1 (some ⟨c, "vkQueuePresentKHR"⟩) := by
        have he : gst_vulkan_error_to_g_error c "vkQueuePresentKHR" =
            some ⟨c, "vkQueuePresentKHR"⟩ := by
          simp [gst_vulkan_error_to_g_error, hneg]
        rw [reacquire]
        simp only [St.result, hs, count_create, count_log, reduceCtorEq, if_false, hnood, hna,
          fresh_eq, log_next, create_swapper, log_swapper, hbuild, hq, vk_call, hnsub, hc, hood,
          he]
      rw [hB]
      refine ⟨rfl, ?_, ?_⟩
      · simp only [error_exit, Outcome.st]
        rw [hrel _ _ _ _ (by decide)]
        simp
      · simp only [error_exit, Outcome.st]
        rw [hrel _ _ _ _ (by decide)]
        simp
    · intro hood e s hres
      have hD : reacquire p buffer (fuel + 1) st semaphore cd =
          error_exit s (st.vk.next + 1) cd1 e := by
        rw [reacquire]
        simp only [St.result, hs, count_create, count_log, reduceCtorEq, if_false, hnood, hna,
          fresh_eq, log_next, create_swapper, log_swapper, hbuild, hq, vk_call, hnsub, hood,
          if_true, hres]
      rw [hD]
      refine ⟨rfl, ?_⟩
      simp only [error_exit, Outcome.st]
      rw [hrel _ _ _ _ (by decide)]
theorem present_lost_helpers : helpers_succeed present_lost := by
  intro api k _ h2
  simp [present_lost, sample_platform, h2]

/-- C15 (witness): the configured presenter on three platforms. On the
first the acquisition fails with `VK_ERROR_DEVICE_LOST`; on the second the
attempt reaches `QueuePresentKHR`, which fails with `VK_ERROR_DEVICE_LOST`;
on the third the acquisition is out of date and the rebuild fails. -/
theorem only_out_of_date_is_retried_witness :
    (0 ≤ acquire_lost.result .vkCreateSemaphore (configured.count .vkCreateSemaphore) ∧
      acquire_lost.result .AcquireNextImageKHR (configured.count .AcquireNextImageKHR) =
        VK_ERROR_DEVICE_LOST ∧
      VK_ERROR_DEVICE_LOST < 0 ∧ VK_ERROR_DEVICE_LOST ≠ VK_ERROR_OUT_OF_DATE_KHR ∧
      reacquire acquire_lost 9 1 configured 0 ⟨0, 0, false, 0⟩ =
        error_exit
          (((configured.log .vkCreateSemaphore []).create .semaphore).log .AcquireNextImageKHR
            [configured.swapper.swap_chain, configured.vk.next + 1])
          (configured.vk.next + 1) ⟨0, 0, false, 0⟩
          (some ⟨VK_ERROR_DEVICE_LOST, "vkAcquireNextImageKHR"⟩)) ∧
    (∃ cd1 st5,
      _build_render_buffer_cmd present_lost
          (((configured.log .vkCreateSemaphore []).create .semaphore).log .AcquireNextImageKHR
            [configured.swapper.swap_chain, configured.vk.next + 1])
          (present_lost.swap_idx (configured.count .AcquireNextImageKHR)) 9 ⟨0, 0, false, 0⟩ =
        .ret true cd1 none st5 ∧
      reacquire present_lost 9 1 configured 0 ⟨0, 0, false, 0⟩ =
        error_exit
          ((st5.log .vkQueueSubmit [st5.swapper.queue, cd1.cmd, cd1.fence]).log
            .QueuePresentKHR [st5.swapper.queue, st5.swapper.swap_chain,
              present_lost.swap_idx (configured.count .AcquireNextImageKHR),
              configured.vk.next + 1])
          (configured.vk.next + 1) cd1 (some ⟨VK_ERROR_DEVICE_LOST, "vkQueuePresentKHR"⟩)) ∧
    (∃ e s,
      _swapchain_resize stale_then_lost
          (((((configured.log .vkCreateSemaphore []).create .semaphore).log .AcquireNextImageKHR
            [configured.swapper.swap_chain, configured.vk.next + 1]).log .vkDestroySemaphore
              [configured.vk.next + 1]).release (configured.vk.next + 1)) = .ret false () e s ∧
      reacquire stale_then_lost 9 1 configured 0 ⟨0, 0, false, 0⟩ =
        error_exit s (configured.vk.next + 1) ⟨0, 0, false, 0⟩ e) := by
  refine ⟨⟨by decide, by decide, by decide, by decide,
    ((only_out_of_date_is_retried acquire_lost 9 0 configured 0 ⟨0, 0, false, 0⟩
      (by decide)).1 VK_ERROR_DEVICE_LOST (by decide) (by decide) (by decide)).1⟩, ?_, ?_⟩
  · obtain ⟨st5, hb, hsw, -⟩ := build_render_buffer_cmd_run present_lost present_lost_helpers
      (fun _ _ => (by decide : 4 * 16 ≤ 64))
      [⟨4, 100, 44, 4, 4⟩, ⟨5, 101, 44, 4, 4⟩]
      (rfl : _build_render_buffer_cmd present_lost
        (((configured.log .vkCreateSemaphore []).create .semaphore).log .AcquireNextImageKHR
          [configured.swapper.swap_chain, configured.vk.next + 1])
        (present_lost.swap_idx (configured.count .AcquireNextImageKHR)) 9 ⟨0, 0, false, 0⟩ = _)
      (by decide) rfl (by decide)
    refine ⟨_, st5, hb, ?_⟩
    exact (((only_out_of_date_is_retried present_lost 9 0 configured 0 ⟨0, 0, false, 0⟩
      (by decide)).2.2 (by decide) _ st5 hb (by rw [hsw]; decide)
        (by simp [present_lost, sample_platform])).1 VK_ERROR_DEVICE_LOST
        (by simp [present_lost, sample_platform]) (by decide) (by decide)).1
  · have h : ∃ e s, _swapchain_resize stale_then_lost
        (((((configured.log .vkCreateSemaphore []).create .semaphore).log .AcquireNextImageKHR
          [configured.swapper.swap_chain, configured.vk.next + 1]).log .vkDestroySemaphore
            [configured.vk.next + 1]).release (configured.vk.next + 1)) = .ret false () e s :=
      ⟨_, _, rfl⟩
    obtain ⟨e, s, hres⟩ := h
    exact ⟨e, s, hres, ((only_out_of_date_is_retried stale_then_lost 9 0 configured 0
      ⟨0, 0, false, 0⟩ (by decide)).2.1 (by decide) e s hres).1⟩

/-! ## The retry loop (C16) -/

theorem stale_acquire_pass (p : Platform) (hp : helpers_succeed p) (hu : usage_supported p)
    (buffer fuel : Nat) (st : St) (semaphore : Nat) (cd : cmd_data)
    (hq : st.swapper.queue ≠ 0)
    (hood : p.result .AcquireNextImageKHR (st.count .AcquireNextImageKHR) =
      VK_ERROR_OUT_OF_DATE_KHR) :
    ∃ st', reacquire p buffer (fuel + 1) st semaphore cd =
        reacquire p buffer fuel st' (st.vk.next + 1) cd ∧
      st'.swapper.queue ≠ 0 ∧
      st'.count .AcquireNextImageKHR = st.count .AcquireNextImageKHR + 1 ∧
      st'.count .QueuePresentKHR = st.count .QueuePresentKHR ∧
      st'.count .CreateSwapchainKHR = st.count .CreateSwapchainKHR + 1 ∧
      ∀ i, (∀ k, i < (p.swap_chain_images k).length) → image_ready st'.swapper i := by
  have e1 := helpers_no_error_at hp .vkCreateSemaphore (by decide) (by decide)
  rw [reacquire]
  simp only [St.result, e1, count_log, count_create, count_set, if_false, hood, if_true,
    reduceCtorEq]
  generalize hr1 : _swapchain_resize p _ = r1
  obtain ⟨st5, rfl, h1, -, -, -, -, -, ⟨arr, h7a, h7b, h7c, h7d⟩, -, h9, ⟨args, h10⟩⟩ :=
    swapchain_resize_run p hp hu hr1 (by simpa using hq)
  clear hr1
  simp only [log_swapper, create_swapper, release_swapper, set_swapper, log_trace, create_trace,
    release_trace, set_vk, log_next, create_next, release_next, fresh_eq] at h1 h10
  refine ⟨st5, rfl, by rw [h1]; exact hq, ?_, ?_, ?_, ?_⟩
  · rw [count_eq, h9 _ (by simp [observed]) (by decide)]
    simp [count_eq]
  · rw [count_eq, h9 _ (by simp [observed]) (by decide)]
    simp [count_eq]
  · rw [count_eq, h10]
    simp [count_eq]
  · intro i hi
    exact ⟨by rw [h7b]; exact h7c i hi, arr, h7a, h7d _ (h7c i hi)⟩

theorem fresh_pass (p : Platform) (hp : helpers_succeed p) (hf : rows_fit p)
    (buffer fuel : Nat) (st : St) (semaphore : Nat) (cd : cmd_data)
    (hq : st.swapper.queue ≠ 0)
    (hacq : 0 ≤ p.result .AcquireNextImageKHR (st.count .AcquireNextImageKHR))
    (hpres : 0 ≤ p.result .QueuePresentKHR (st.count .QueuePresentKHR))
    (hready : image_ready st.swapper (p.swap_idx (st.count .AcquireNextImageKHR))) :
    ∃ st', reacquire p buffer (fuel + 1) st semaphore cd = .returned true none st' ∧
      st'.count .AcquireNextImageKHR = st.count .AcquireNextImageKHR + 1 ∧
      st'.count .CreateSwapchainKHR = st.count .CreateSwapchainKHR := by
  obtain ⟨hidx, arr, harr, hmem⟩ := hready
  have e1 := helpers_no_error_at hp .vkCreateSemaphore (by decide) (by decide)
  have e2 := helpers_no_error_at hp .vkQueueSubmit (by decide) (by decide)
  have e3 := helpers_no_error_at hp .vkWaitForFences (by decide) (by decide)
  rw [reacquire]
  simp only [St.result, e1, count_log, count_create, count_set, if_false, reduceCtorEq,
    not_out_of_date hacq, no_error_of_nonneg hacq]
  generalize hr2 : _build_render_buffer_cmd p _ _ _ _ = r2
  obtain ⟨st6, rfl, b1, -, -, -, -, b6, -⟩ := build_render_buffer_cmd_run p hp hf arr hr2
    (by simpa using hidx) (by simpa using harr) hmem
  clear hr2
  simp only [log_swapper, create_swapper, release_swapper, set_swapper, log_trace, create_trace,
    release_trace, set_vk, log_next, create_next, release_next, fresh_eq] at b1
  have hpres6 : st6.count .QueuePresentKHR = st.count .QueuePresentKHR := by
    rw [count_eq, b6 _ (by simp [observed]) (by decide) (by decide)]
    simp [count_eq]
  have c1 := b6 .AcquireNextImageKHR (by simp [observed]) (by decide) (by decide)
  have c3 := b6 .CreateSwapchainKHR (by simp [observed]) (by decide) (by decide)
  simp only [b1, hq, if_false, vk_call, St.result, e2, e3, count_log, reduceCtorEq,
    log_swapper, create_swapper, release_swapper, set_swapper, log_next, create_next, fresh_eq,
    hpres6, not_out_of_date hpres, no_error_of_nonneg hpres]
  refine ⟨_, rfl, ?_, ?_⟩
  · rw [count_eq, appended_calls (release_attempt_appended _ _ _) _ (by decide)]
    simp [c1, count_eq]
  · rw [count_eq, appended_calls (release_attempt_appended _ _ _) _ (by decide)]
    simp [c3, count_eq]
theorem stale_acquisitions_recover (p : Platform) (hp : helpers_succeed p)
    (hu : usage_supported p) (hf : rows_fit p) (buffer fuel : Nat) :
    ∀ (k : Nat) (st : St) (semaphore : Nat) (cd : cmd_data),
      st.swapper.queue ≠ 0 →
      (∀ i, i < k → p.result .AcquireNextImageKHR (st.count .AcquireNextImageKHR + i) =
        VK_ERROR_OUT_OF_DATE_KHR) →
      0 ≤ p.result .AcquireNextImageKHR (st.count .AcquireNextImageKHR + k) →
      0 ≤ p.result .QueuePresentKHR (st.count .QueuePresentKHR) →
      (∀ j, p.swap_idx (st.count .AcquireNextImageKHR + k) < (p.swap_chain_images j).length) →
      (k = 0 → image_ready st.swapper (p.swap_idx (st.count .AcquireNextImageKHR))) →
      ∃ st', reacquire p buffer (fuel + k + 1) st semaphore cd = .returned true none st' ∧
        st'.count .CreateSwapchainKHR = st.count .CreateSwapchainKHR + k ∧
        st'.count .AcquireNextImageKHR = st.count .AcquireNextImageKHR + k + 1 := by
  intro k
  induction k with
  | zero =>
    intro st semaphore cd hq _ hacq hpres _ hready
    obtain ⟨st', h1, h2, h3⟩ := fresh_pass p hp hf buffer fuel st semaphore cd hq
      (by simpa using hacq) hpres (hready rfl)
    exact ⟨st', h1, by simpa using h3, by simpa using h2⟩
  | succ k ih =>
    intro st semaphore cd hq hood hacq hpres hidx _
    obtain ⟨s, h1, h2, h3, h4, h5, h6⟩ := stale_acquire_pass p hp hu buffer (fuel + k + 1) st
      semaphore cd hq (by simpa using hood 0 (Nat.succ_pos k))
    have hshift : ∀ i, s.count .AcquireNextImageKHR + i =
        st.count .AcquireNextImageKHR + (i + 1) := by
      intro i
      rw [h3]
      omega
    obtain ⟨st', i1, i2, i3⟩ := ih s (st.vk.next + 1) cd h2
      (fun i hi => by rw [hshift]; exact hood (i + 1) (Nat.succ_lt_succ hi))
      (by rw [hshift]; exact hacq)
      (by rw [h4]; exact hpres)
      (fun j => by rw [hshift]; exact hidx j)
      (fun hk => h6 _ (fun j => by
        have := hidx j
        rw [h3]
        subst hk
        exact this))
    refine ⟨st', ?_, ?_, ?_⟩
    · rw [show fuel + (k + 1) + 1 = (fuel + k + 1) + 1 from by omega, h1]
      exact i1
    · rw [i2, h5]
      omega
    · rw [i3, h3]
      omega

/-- Supplement to C16, the bound is attained: the number of rebuilds in one
presentation call is the number of out-of-date reports, whatever it is. If the next `k` acquisitions
report out-of-date and the one after them succeeds, and every other call
succeeds, then the call returns `TRUE` after exactly `k` calls of
`CreateSwapchainKHR` and `k + 1` acquisitions, in `k + 1` passes through
`reacquire:`; this holds for every `k`. -/
theorem rebuilds_follow_out_of_date_reports (p : Platform) (st : St) (buffer k fuel : Nat)
    (hbuf : buffer ≠ 0) (hquit : st.swapper.to_quit = false) (hq : st.swapper.queue ≠ 0)
    (hp : helpers_succeed p) (hu : usage_supported p) (hf : rows_fit p)
    (hood : ∀ i, i < k → p.result .AcquireNextImageKHR (st.count .AcquireNextImageKHR + i) =
      VK_ERROR_OUT_OF_DATE_KHR)
    (hacq : 0 ≤ p.result .AcquireNextImageKHR (st.count .AcquireNextImageKHR + k))
    (hpres : 0 ≤ p.result .QueuePresentKHR (st.count .QueuePresentKHR))
    (hidx : ∀ j, p.swap_idx (st.count .AcquireNextImageKHR + k) < (p.swap_chain_images j).length)
    (hready : k = 0 → image_ready st.swapper (p.swap_idx (st.count .AcquireNextImageKHR))) :
    ∃ st', _render_buffer_unlocked p (fuel + k + 1) st buffer = .returned true none st' ∧
      (calls_of .CreateSwapchainKHR st'.vk.trace).length =
        (calls_of .CreateSwapchainKHR st.vk.trace).length + k ∧
      (calls_of .AcquireNextImageKHR st'.vk.trace).length =
        (calls_of .AcquireNextImageKHR st.vk.trace).length + k + 1 := by
  unfold _render_buffer_unlocked
  simp only [hbuf, hquit, if_false, Bool.false_eq_true]
  obtain ⟨st', h1, h2, h3⟩ := stale_acquisitions_recover p hp hu hf buffer fuel k
    (st.set fun s => { s with current_buffer := buffer }) 0 ⟨0, 0, false, 0⟩
    (by simpa using hq) (by simpa using hood) (by simpa using hacq) (by simpa using hpres)
    (by simpa using hidx) (by simpa [image_ready] using hready)
  exact ⟨st', h1, by simpa [count_eq] using h2, by simpa [count_eq] using h3⟩

theorem stale_twice_helpers : helpers_succeed stale_twice := by
  intro api k h1 _
  simp [stale_twice, sample_platform, h1]

/-- Supplement to C16, an instance: two out-of-date acquisitions, then success. -/
theorem rebuilds_follow_out_of_date_reports_witness :
    helpers_succeed stale_twice ∧ usage_supported stale_twice ∧ rows_fit stale_twice ∧
      (∀ i, i < 2 → stale_twice.result .AcquireNextImageKHR
        (configured.count .AcquireNextImageKHR + i) = VK_ERROR_OUT_OF_DATE_KHR) ∧
      ∃ st', _render_buffer_unlocked stale_twice 3 configured 9 = .returned true none st' ∧
        (calls_of .CreateSwapchainKHR st'.vk.trace).length =
          (calls_of .CreateSwapchainKHR configured.vk.trace).length + 2 ∧
        (calls_of .AcquireNextImageKHR st'.vk.trace).length =
          (calls_of .AcquireNextImageKHR configured.vk.trace).length + 2 + 1 := by
  have hu : usage_supported stale_twice :=
    fun _ => (by decide : (18 : Nat) &&& 2 ≠ 0 ∧ (18 : Nat) &&& 16 ≠ 0)
  have hf : rows_fit stale_twice := fun _ _ => (by decide : 4 * 16 ≤ 64)
  have hood : ∀ i, i < 2 → stale_twice.result .AcquireNextImageKHR
      (configured.count .AcquireNextImageKHR + i) = VK_ERROR_OUT_OF_DATE_KHR := by
    intro i hi
    interval_cases i <;> decide
  exact ⟨stale_twice_helpers, hu, hf, hood,
    rebuilds_follow_out_of_date_reports stale_twice configured 9 2 0 (by decide) rfl (by decide)
      stale_twice_helpers hu hf hood (by decide) (by decide) (fun _ => (by decide : 1 < 2))
      (fun h => absurd h (by decide))⟩

theorem allocate_swapchain_appended (p : Platform) (st : St) :
    appended resize_apis st (_allocate_swapchain p st).st := by
  obtain ⟨he1, -, -⟩ := ensure_surface_footprint p st
  obtain ⟨ok, e0, st1, hens⟩ := ensure_surface_returns p st
  unfold _allocate_swapchain
  rw [hens] at he1 ⊢
  simp only [Res.st] at he1
  have he : appended resize_apis st st1 := appended_mono (by decide) he1
  cases ok with
  | false => exact he
  | true =>
    simp only [gst_vulkan_error_to_g_error, St.result]
    repeat' (first | split_ifs | dsimp only)
    all_goals first
      | (simp only [Res.st]
         repeat (first
          | exact he
          | apply appended_create
          | apply appended_release
          | apply appended_set
          | (refine appended_log ?_ (by decide)))
         done)
      | exact appended_trans (by
          repeat (first
            | exact he
            | apply appended_create
            | apply appended_release
            | apply appended_set
            | (refine appended_log ?_ (by decide))))
          (appended_mono (by decide) (allocate_images_footprint p _ _ _ _).1)

theorem allocate_swapchain_create_count (p : Platform) (st : St) :
    (_allocate_swapchain p st).st.count .CreateSwapchainKHR ≤ st.count .CreateSwapchainKHR + 1 := by
  obtain ⟨he1, -, -⟩ := ensure_surface_footprint p st
  obtain ⟨ok, e0, st1, hens⟩ := ensure_surface_returns p st
  unfold _allocate_swapchain
  rw [hens] at he1 ⊢
  simp only [Res.st] at he1
  have hcnt : st1.count .CreateSwapchainKHR = st.count .CreateSwapchainKHR :=
    appended_count he1 _ (by decide)
  cases ok with
  | false =>
    simp only [Res.st, hcnt]
    omega
  | true =>
    simp only [gst_vulkan_error_to_g_error, St.result]
    repeat' (first | split_ifs | dsimp only)
    all_goals first
      | (simp only [Res.st, count_log, count_set, count_create, count_release, reduceCtorEq,
           if_false, if_true, hcnt]
         omega)
      | (rw [appended_count (allocate_images_footprint p _ _ _ _).1 _ (by decide)]
         simp only [Res.st, count_log, count_set, count_create, count_release, reduceCtorEq,
           if_false, if_true, hcnt]
         omega)
theorem swapchain_resize_footprint (p : Platform) (st : St) :
    appended resize_apis st (_swapchain_resize p st).st ∧
      (_swapchain_resize p st).st.count .CreateSwapchainKHR ≤
        st.count .CreateSwapchainKHR + 1 := by
  have hu : ∀ st1 : St, appended resize_apis st st1 →
      st1.count .CreateSwapchainKHR = st.count .CreateSwapchainKHR →
      appended resize_apis st (_allocate_swapchain p
        (match st1.swapper.swap_chain_images with
          | some images => unref_images_loop images st1.swapper.n_swap_chain_images
              st1.swapper.n_swap_chain_images st1
          | none => st1)).st ∧
      (_allocate_swapchain p
        (match st1.swapper.swap_chain_images with
          | some images => unref_images_loop images st1.swapper.n_swap_chain_images
              st1.swapper.n_swap_chain_images st1
          | none => st1)).st.count .CreateSwapchainKHR ≤ st.count .CreateSwapchainKHR + 1 := by
    intro st1 h1 hc1
    have h2 : ∃ st2, (match st1.swapper.swap_chain_images with
          | some images => unref_images_loop images st1.swapper.n_swap_chain_images
              st1.swapper.n_swap_chain_images st1
          | none => st1) = st2 ∧ appended [.gst_memory_unref] st1 st2 := by
      cases st1.swapper.swap_chain_images with
      | none => exact ⟨_, rfl, appended_refl _ _⟩
      | some images => exact ⟨_, rfl, unref_images_loop_appended images _ _ st1⟩
    obtain ⟨st2, h2e, h2a⟩ := h2
    rw [h2e]
    refine ⟨appended_trans (appended_trans h1 (appended_mono (by decide) h2a))
      (allocate_swapchain_appended p st2), ?_⟩
    have := allocate_swapchain_create_count p st2
    rw [appended_count h2a _ (by decide), hc1] at this
    exact this
  unfold _swapchain_resize
  by_cases hq : st.swapper.queue = 0
  · simp only [if_pos hq]
    have ha := retrieve_surface_properties_appended p st
    revert ha
    generalize _vulkan_swapper_retrieve_surface_properties p st = r0
    intro ha
    have hc := appended_count ha .CreateSwapchainKHR (by decide)
    have ha2 : appended resize_apis st r0.st := appended_mono (by decide) ha
    cases r0 with
    | abort s =>
      simp only [Res.st] at ha2 hc ⊢
      exact ⟨ha2, by rw [hc]; omega⟩
    | ret ok out e st1 =>
      simp only [Res.st] at ha2 hc
      cases ok with
      | false =>
        simp only [Res.st]
        exact ⟨ha2, by rw [hc]; omega⟩
      | true => exact hu st1 ha2 hc
  · simp only [if_neg hq]
    exact hu st (appended_refl _ _) rfl
/-- C17: the acquisition hands out index 2 on a chain of two images. The
check at the head of `_build_render_buffer_cmd` returns `FALSE` without
setting the error, `_render_buffer_unlocked` returns `FALSE` with the error
still `NULL`, and the redraw handler, when it logs the failure, reads
`error->message` through that `NULL`. -/
theorem render_buffer_fails_without_error :
    ¬ bad_index.swap_idx (configured.count .AcquireNextImageKHR) <
        configured.swapper.n_swap_chain_images ∧
      ∃ st', _render_buffer_unlocked bad_index 1 configured 9 = .returned false none st' ∧
        _on_window_draw bad_index 1 retained true = .aborted st' := by
  refine ⟨by decide, _, rfl, ?_⟩
  decide

/-! ## Releases of the acquire semaphore (C18) -/

/-- C18: the first acquisition reports out-of-date, so its semaphore (handle
6) is destroyed in the out-of-date branch; the rebuild then fails and the
error exit destroys handle 6 again, although only one semaphore was created.
The same happens when the rebuild succeeds and the next
`vkCreateSemaphore` fails. -/
theorem semaphore_destroyed_twice :
    (∃ st', _render_buffer_unlocked stale_then_lost 1 configured 9 =
        .returned false
          (some ⟨VK_ERROR_SURFACE_LOST_KHR, "GetPhysicalDeviceSurfaceCapabilitiesKHR"⟩) st' ∧
      calls_of .vkCreateSemaphore st'.vk.trace = [[]] ∧
      (configured.create .semaphore).vk.live = configured.vk.live ++ [(.semaphore, 6)] ∧
      calls_of .vkDestroySemaphore st'.vk.trace = [[6], [6]]) ∧
    (∃ st', _render_buffer_unlocked stale_then_no_semaphore 2 configured 9 =
        .returned false (some ⟨VK_ERROR_DEVICE_LOST, "vkCreateSemaphore"⟩) st' ∧
      calls_of .vkDestroySemaphore st'.vk.trace = [[6], [6]]) := by
  refine ⟨⟨_, rfl, ?_⟩, ⟨_, rfl, ?_⟩⟩
  · decide
  · decide

/-! ## Pixel formats (C19) -/

theorem to_video_format_known (f : Nat) (h : _vk_format_to_video_format f ≠ 0) :
    _vk_format_from_video_format (_vk_format_to_video_format f) ≠ VK_FORMAT_UNDEFINED := by
  unfold _vk_format_to_video_format at h ⊢
  split_ifs at h ⊢ <;> first | decide | exact absurd rfl h

theorem add_vk_format_to_list_defined (list : List Nat) (format : Nat)
    (h : ∀ v ∈ list, _vk_format_from_video_format v ≠ VK_FORMAT_UNDEFINED) :
    ∀ v ∈ _add_vk_format_to_list list format,
      _vk_format_from_video_format v ≠ VK_FORMAT_UNDEFINED := by
  intro v hv
  unfold _add_vk_format_to_list at hv
  simp only at hv
  split_ifs at hv with h0
  · rcases List.mem_append.1 hv with h1 | h1
    · exact h v h1
    · simp only [List.mem_singleton] at h1
      subst h1
      exact to_video_format_known format h0
  · exact h v hv

theorem supported_formats_loop_defined (surf_formats : List VkSurfaceFormatKHR) (n k : Nat) :
    ∀ list : List Nat, (∀ v ∈ list, _vk_format_from_video_format v ≠ VK_FORMAT_UNDEFINED) →
      ∀ v ∈ supported_formats_loop surf_formats n k list,
        _vk_format_from_video_format v ≠ VK_FORMAT_UNDEFINED := by
  induction k with
  | zero =>
    intro list h
    simpa [supported_formats_loop] using h
  | succ k ih =>
    intro list h
    rw [supported_formats_loop]
    exact ih _ (add_vk_format_to_list_defined list _ h)

theorem supported_formats_defined (surf_formats : List VkSurfaceFormatKHR) (n : Nat) :
    ∀ v ∈ supported_formats surf_formats n,
      _vk_format_from_video_format v ≠ VK_FORMAT_UNDEFINED := by
  unfold supported_formats
  split_ifs
  · exact add_vk_format_to_list_defined [] _ (by simp)
  · exact supported_formats_loop_defined surf_formats n n [] (by simp)

/-- C19: on the four video formats RGBA, RGB, BGRA and BGR,
`_vk_format_to_video_format` undoes `_vk_format_from_video_format`; a Vulkan
format is mapped to a known video format exactly when it is one of the four
8-bit UNORM formats, and then `_vk_format_from_video_format` undoes
`_vk_format_to_video_format`; so every video format in the list that
`gst_vulkan_swapper_get_supported_caps` advertises is mapped by
`_vk_format_from_video_format`, as `_allocate_swapchain` does, to a format
other than `VK_FORMAT_UNDEFINED`. -/
theorem format_mappings_inverse :
    (∀ v, v ∈ [GST_VIDEO_FORMAT_RGBA, GST_VIDEO_FORMAT_RGB, GST_VIDEO_FORMAT_BGRA,
        GST_VIDEO_FORMAT_BGR] →
      _vk_format_to_video_format (_vk_format_from_video_format v) = v) ∧
    (∀ f, _vk_format_to_video_format f ≠ GST_VIDEO_FORMAT_UNKNOWN ↔
      f ∈ [VK_FORMAT_R8G8B8A8_UNORM, VK_FORMAT_R8G8B8_UNORM, VK_FORMAT_B8G8R8A8_UNORM,
        VK_FORMAT_B8G8R8_UNORM]) ∧
    (∀ f, _vk_format_to_video_format f ≠ GST_VIDEO_FORMAT_UNKNOWN →
      _vk_format_from_video_format (_vk_format_to_video_format f) = f) ∧
    (∀ p st formats e st', gst_vulkan_swapper_get_supported_caps p st = .ret true formats e st' →
      ∀ v ∈ formats, _vk_format_from_video_format v ≠ VK_FORMAT_UNDEFINED) := by
  refine ⟨?_, ?_, ?_, ?_⟩
  · intro v hv
    simp only [List.mem_cons, List.mem_singleton, List.not_mem_nil, or_false] at hv
    rcases hv with h | h | h | h <;> subst h <;> decide
  · intro f
    unfold _vk_format_to_video_format
    simp only [List.mem_cons, List.mem_singleton, List.not_mem_nil, or_false]
    split_ifs with h1 h2 h3 h4
    · simp [h1]
      decide
    · simp [h2]
      decide
    · simp [h3]
      decide
    · simp [h4]
      decide
    · simp [h1, h2, h3, h4]
  · intro f hf
    unfold _vk_format_to_video_format at hf ⊢
    split_ifs at hf ⊢ with h1 h2 h3 h4
    · rw [h1]
      decide
    · rw [h2]
      decide
    · rw [h3]
      decide
    · rw [h4]
      decide
    · exact absurd rfl hf
  · intro p st formats e st' h v hv
    unfold gst_vulkan_swapper_get_supported_caps at h
    revert h
    generalize _vulkan_swapper_retrieve_surface_properties p st = r
    intro h
    cases r with
    | abort s => simp at h
    | ret ok out e0 s =>
      cases ok with
      | false => simp at h
      | true =>
        simp only at h
        cases hs : s.swapper.surf_formats with
        | none =>
          rw [hs] at h
          simp only at h
          split_ifs at h
          · injection h with _ h2
            subst h2
            simp at hv
        | some fs =>
          rw [hs] at h
          simp only at h
          injection h with _ h2
          subst h2
          exact supported_formats_defined fs _ v hv

/-! ## Recovery from an out-of-date presentation (C5) -/

theorem build_render_buffer_cmd_trace (p : Platform) (hp : helpers_succeed p) (hf : rows_fit p)
    {st : St} {swap_idx buffer : Nat} {cd cd1 : cmd_data} {st' : St}
    (arr : List GstVulkanImageMemory)
    (hr : _build_render_buffer_cmd p st swap_idx buffer cd = .ret true cd1 none st')
    (hidx : swap_idx < st.swapper.n_swap_chain_images)
    (harr : st.swapper.swap_chain_images = some arr)
    (hmem : (arr.getD swap_idx null_image).mem ≠ 0) :
    st'.vk.trace = st.vk.trace ++
      transfer_calls buffer (arr.getD swap_idx null_image)
        (p.vframe (st.count .gst_video_frame_map)) st.swapper.v_info
        (st.vk.next + 1) (st.vk.next + 2) := by
  have n1 := helpers_not_neg_at hp .gst_vulkan_device_create_cmd_buffer (by decide) (by decide)
  have n2 := helpers_not_neg_at hp .gst_video_frame_map (by decide) (by decide)
  have n3 := helpers_not_neg_at hp .gst_vulkan_image_memory_alloc (by decide) (by decide)
  have n4 := helpers_not_neg_at hp .gst_memory_map (by decide) (by decide)
  have e1 := helpers_no_error_at hp .vkBeginCommandBuffer (by decide) (by decide)
  have e2 := helpers_no_error_at hp .vkEndCommandBuffer (by decide) (by decide)
  have e3 := helpers_no_error_at hp .vkCreateFence (by decide) (by decide)
  unfold _build_render_buffer_cmd at hr
  simp only [hidx, not_true_eq_false, if_false, harr, gst_vulkan_device_create_cmd_buffer,
    St.result, n1, n2, n3, n4, hmem] at hr
  revert hr
  generalize hup : upload_frame _ _ _ = up
  obtain ⟨mem', rfl⟩ := upload_frame_run (hf _ _) hup
  intro hr
  simp only [record_render_buffer_cmd, vk_call, St.result, e1, e2, e3, _new_fence,
    _swapper_set_image_layout_with_cmd] at hr
  injection hr with _ _ _ hst
  subst hst
  simp [transfer_calls]

theorem swapchain_resize_appended_run (p : Platform) {st : St} {r : Res Unit}
    (hr : _swapchain_resize p st = r) : appended resize_apis st r.st := by
  subst hr
  exact (swapchain_resize_footprint p st).1

/-- C5: for a non-`NULL` frame, with the quit flag clear and the queue in
place: if the first attempt gets as far as `QueuePresentKHR`, which reports
out-of-date, and every call of the rebuild and of the second attempt
succeeds, then with fuel for two passes the call returns `TRUE` with no error.
The calls it makes are, in this order: semaphore creation, acquisition, the
transfer of the frame, `vkQueueSubmit` and `QueuePresentKHR` of the first
attempt; the calls `R` of the rebuild, with one `CreateSwapchainKHR` on the
old chain; exactly the four releases of the first attempt (semaphore, command
buffer, fence and staging image, handles `next + 1` to `next + 4`); then
again semaphore creation, acquisition on the rebuilt chain, the transfer of
the same frame onto the image of the new index, `vkQueueSubmit`,
`QueuePresentKHR`, the fence wait, and the four releases of the second
attempt. None of the four objects of the first attempt is allocated at the
end. -/
theorem present_out_of_date_recovers (p : Platform) (st : St) (buffer fuel : Nat)
    (arr0 : List GstVulkanImageMemory)
    (hbuf : buffer ≠ 0) (hquit : st.swapper.to_quit = false) (hq : st.swapper.queue ≠ 0)
    (hp : helpers_succeed p) (hu : usage_supported p) (hf : rows_fit p)
    (hacq0 : 0 ≤ p.result .AcquireNextImageKHR (st.count .AcquireNextImageKHR))
    (hidx0 : p.swap_idx (st.count .AcquireNextImageKHR) < st.swapper.n_swap_chain_images)
    (harr0 : st.swapper.swap_chain_images = some arr0)
    (hmem0 : (arr0.getD (p.swap_idx (st.count .AcquireNextImageKHR)) null_image).mem ≠ 0)
    (hood : p.result .QueuePresentKHR (st.count .QueuePresentKHR) = VK_ERROR_OUT_OF_DATE_KHR)
    (hacq1 : 0 ≤ p.result .AcquireNextImageKHR (st.count .AcquireNextImageKHR + 1))
    (hidx1 : ∀ k, p.swap_idx (st.count .AcquireNextImageKHR + 1) <
      (p.swap_chain_images k).length)
    (hpres1 : 0 ≤ p.result .QueuePresentKHR (st.count .QueuePresentKHR + 1)) :
    ∃ st' semaphore args images R cmd staging fence,
      _render_buffer_unlocked p (fuel + 2) st buffer = .returned true none st' ∧
      st'.swapper.current_buffer = buffer ∧
      st.vk.next < st'.swapper.swap_chain ∧
      calls_of .CreateSwapchainKHR st'.vk.trace =
        calls_of .CreateSwapchainKHR st.vk.trace ++ [st.swapper.swap_chain :: args] ∧
      calls_of .AcquireNextImageKHR st'.vk.trace =
        calls_of .AcquireNextImageKHR st.vk.trace ++
          [[st.swapper.swap_chain, st.vk.next + 1], [st'.swapper.swap_chain, semaphore]] ∧
      calls_of .gst_video_frame_map st'.vk.trace =
        calls_of .gst_video_frame_map st.vk.trace ++ [[buffer], [buffer]] ∧
      calls_of .QueuePresentKHR st'.vk.trace =
        calls_of .QueuePresentKHR st.vk.trace ++
          [[st.swapper.queue, st.swapper.swap_chain,
            p.swap_idx (st.count .AcquireNextImageKHR), st.vk.next + 1],
           [st.swapper.queue, st'.swapper.swap_chain,
            p.swap_idx (st.count .AcquireNextImageKHR + 1), semaphore]] ∧
      calls_of .vkDestroySemaphore st'.vk.trace =
        calls_of .vkDestroySemaphore st.vk.trace ++ [[st.vk.next + 1], [semaphore]] ∧
      [st.vk.next + 2] ∈ calls_of .vkFreeCommandBuffers st'.vk.trace ∧
      [st.vk.next + 4] ∈ calls_of .vkDestroyFence st'.vk.trace ∧
      [st.vk.next + 3] ∈ calls_of .gst_memory_unref st'.vk.trace ∧
      (∀ r ∈ st'.vk.live, r.2 ≠ st.vk.next + 1 ∧ r.2 ≠ st.vk.next + 2 ∧
        r.2 ≠ st.vk.next + 3 ∧ r.2 ≠ st.vk.next + 4) ∧
      live_sub st' st ∧
      st'.swapper.swap_chain_images = some images ∧
      (∀ c ∈ R, c.api ∈ resize_apis) ∧
      calls_of .CreateSwapchainKHR R = [st.swapper.swap_chain :: args] ∧
      st'.vk.trace = st.vk.trace ++
        [⟨.vkCreateSemaphore, []⟩,
          ⟨.AcquireNextImageKHR, [st.swapper.swap_chain, st.vk.next + 1]⟩] ++
        transfer_calls buffer (arr0.getD (p.swap_idx (st.count .AcquireNextImageKHR)) null_image)
          (p.vframe (st.count .gst_video_frame_map)) st.swapper.v_info
          (st.vk.next + 2) (st.vk.next + 3) ++
        [⟨.vkQueueSubmit, [st.swapper.queue, st.vk.next + 2, st.vk.next + 4]⟩,
          ⟨.QueuePresentKHR, [st.swapper.queue, st.swapper.swap_chain,
            p.swap_idx (st.count .AcquireNextImageKHR), st.vk.next + 1]⟩] ++
        R ++
        release_calls (st.vk.next + 1) (st.vk.next + 2) (st.vk.next + 4) (st.vk.next + 3) ++
        [⟨.vkCreateSemaphore, []⟩,
          ⟨.AcquireNextImageKHR, [st'.swapper.swap_chain, semaphore]⟩] ++
        transfer_calls buffer
          (images.getD (p.swap_idx (st.count .AcquireNextImageKHR + 1)) null_image)
          (p.vframe (st.count .gst_video_frame_map + 1)) st.swapper.v_info cmd staging ++
        [⟨.vkQueueSubmit, [st.swapper.queue, cmd, fence]⟩,
          ⟨.QueuePresentKHR, [st.swapper.queue, st'.swapper.swap_chain,
            p.swap_idx (st.count .AcquireNextImageKHR + 1), semaphore]⟩,
          ⟨.vkWaitForFences, [fence]⟩] ++
        release_calls semaphore cmd fence staging := by
  have e1 := helpers_no_error_at hp .vkCreateSemaphore (by decide) (by decide)
  have e2 := helpers_no_error_at hp .vkQueueSubmit (by decide) (by decide)
  have e3 := helpers_no_error_at hp .vkWaitForFences (by decide) (by decide)
  unfold _render_buffer_unlocked
  simp only [hbuf, hquit, if_false, Bool.false_eq_true]
  rw [reacquire]
  simp only [St.result, e1, count_log, count_create, count_set, if_false, reduceCtorEq,
    not_out_of_date hacq0, no_error_of_nonneg hacq0]
  generalize hr0 : _build_render_buffer_cmd p _ _ _ _ = r0
  obtain ⟨st3, rfl, a1, a2, a3, a4, a5, a6, -⟩ := build_render_buffer_cmd_run p hp hf arr0 hr0
    (by simpa using hidx0) (by simpa using harr0) hmem0
  have t0 := build_render_buffer_cmd_trace p hp hf arr0 hr0
    (by simpa using hidx0) (by simpa using harr0) hmem0
  clear hr0
  simp only [log_swapper, create_swapper, release_swapper, set_swapper, log_trace, create_trace,
    release_trace, set_vk, log_next, create_next, release_next, fresh_eq, log_live, create_live,
    release_live] at a1 a2 a3 a4 a5 a6
  have hpres3 : st3.count .QueuePresentKHR = st.count .QueuePresentKHR := by
    rw [count_eq, a6 _ (by simp [observed]) (by decide) (by decide)]
    simp [← count_eq]
  simp only [a1, hq, if_false, vk_call, St.result, e2, e3, count_log, reduceCtorEq,
    log_swapper, create_swapper, release_swapper, set_swapper, log_next, create_next, fresh_eq,
    hpres3, hood, if_true]
  generalize hr1 : _swapchain_resize p _ = r1
  obtain ⟨st5, rfl, h1, h2, h3, h4, h5, h6, ⟨arr, h7a, h7b, h7c, h7d⟩, h8, h9, ⟨args, h10⟩⟩ :=
    swapchain_resize_run p hp hu hr1 (by simpa [a1] using hq)
  have hR0 := swapchain_resize_appended_run p hr1
  unfold appended at hR0
  obtain ⟨R, hR, hRm⟩ := hR0
  have hRc : calls_of .CreateSwapchainKHR R =
      [((st3.log .vkQueueSubmit [st3.swapper.queue, st.vk.next + 1 + 1,
        st.vk.next + 1 + 3]).log .QueuePresentKHR
          [st3.swapper.queue, st3.swapper.swap_chain,
            p.swap_idx (st.count .AcquireNextImageKHR), st.vk.next + 1]).swapper.swap_chain ::
        args] := by
    have h := h10
    simp only [Res.st] at hR
    rw [hR, calls_of_append] at h
    exact List.append_cancel_left h
  clear hr1
  simp only [log_swapper, create_swapper, release_swapper, set_swapper, log_trace, create_trace,
    release_trace, set_vk, log_next, create_next, release_next, fresh_eq, a1, a2]
    at h1 h2 h3 h4 h5 h6 h10
  have z1 : st.vk.next + 1 + 1 ≠ 0 := by omega
  have z3 : st.vk.next + 1 + 3 ≠ 0 := by omega
  have d1 := a6 .AcquireNextImageKHR (by simp [observed]) (by decide) (by decide)
  have d2 := a6 .QueuePresentKHR (by simp [observed]) (by decide) (by decide)
  have d3 := a6 .CreateSwapchainKHR (by simp [observed]) (by decide) (by decide)
  have d5 := a6 .vkDestroySemaphore (by simp [observed]) (by decide) (by decide)
  have hacq5 : st5.count .AcquireNextImageKHR = st.count .AcquireNextImageKHR + 1 := by
    rw [count_eq, h9 _ (by simp [observed]) (by decide)]
    simp [d1, count_eq]
  have hpres5 : st5.count .QueuePresentKHR = st.count .QueuePresentKHR + 1 := by
    rw [count_eq, h9 _ (by simp [observed]) (by decide)]
    simp [d2, count_eq]
  simp only [set_vk, discard_attempt, z1, z3, ne_eq, not_false_eq_true, if_true]
  rw [reacquire]
  simp only [St.result, e1, count_log, count_create, count_release, count_set, if_false,
    reduceCtorEq, hacq5, not_out_of_date hacq1, no_error_of_nonneg hacq1]
  generalize hr2 : _build_render_buffer_cmd p _ _ _ _ = r2
  obtain ⟨st6, rfl, b1, b2, b3, b4, b5, b6, ⟨T6, b7⟩⟩ := build_render_buffer_cmd_run p hp hf arr hr2
    (by simpa [h7b] using h7c _ hidx1) (by simpa using h7a)
    (h7d _ (h7c _ hidx1))
  have t2 := build_render_buffer_cmd_trace p hp hf arr hr2
    (by simpa [h7b] using h7c _ hidx1) (by simpa using h7a)
    (h7d _ (h7c _ hidx1))
  clear hr2
  simp only [log_swapper, create_swapper, release_swapper, set_swapper, log_trace, create_trace,
    release_trace, set_vk, log_next, create_next, release_next, fresh_eq, log_live, create_live,
    release_live] at b1 b2 b3 b4 b5 b6 b7
  have hpres6 : st6.count .QueuePresentKHR = st.count .QueuePresentKHR + 1 := by
    rw [count_eq, b6 _ (by simp [observed]) (by decide) (by decide)]
    simp [← count_eq, hpres5]
  simp only [b1, h1, hq, if_false, vk_call, St.result, e2, e3, count_log, reduceCtorEq,
    log_swapper, create_swapper, release_swapper, set_swapper, log_next, create_next,
    release_next, fresh_eq,
    hpres6, not_out_of_date hpres1, no_error_of_nonneg hpres1]
  have q1 := h9 .AcquireNextImageKHR (by simp [observed]) (by decide)
  have q2 := h9 .QueuePresentKHR (by simp [observed]) (by decide)
  have q3 := h9 .gst_video_frame_map (by simp [observed]) (by decide)
  have q5 := h9 .vkDestroySemaphore (by simp [observed]) (by decide)
  have c1 := b6 .AcquireNextImageKHR (by simp [observed]) (by decide) (by decide)
  have c2 := b6 .QueuePresentKHR (by simp [observed]) (by decide) (by decide)
  have c3 := b6 .CreateSwapchainKHR (by simp [observed]) (by decide) (by decide)
  have c5 := b6 .vkDestroySemaphore (by simp [observed]) (by decide) (by decide)
  simp only [log_trace, create_trace, release_trace, set_vk, calls_of_append, calls_of_cons,
    calls_of_nil, reduceCtorEq, if_false, if_true, List.append_nil, log_swapper, create_swapper,
    release_swapper, set_swapper, fresh_eq, log_next, release_next]
    at q1 q2 q3 q5 c1 c2 c3 c5 d1 d2 d3 d5 b4 a4 h10
  have hfm : st5.count .gst_video_frame_map = st.count .gst_video_frame_map + 1 := by
    rw [count_eq, q3]
    simp [a4, count_eq]
  refine ⟨_, st5.vk.next + 1, args, arr, R, st5.vk.next + 2, st5.vk.next + 3, st5.vk.next + 4,
    rfl, ?_, ?_, ?_, ?_, ?_, ?_, ?_, ?_, ?_, ?_, ?_, ?_, ?_, hRm, ?_, ?_⟩
  all_goals clear e1 e2 e3 hood hacq0 hacq1 hpres1 hidx0 hidx1 h7c h7d hp hu hf h9 b6 a6 b5 a5
  · simp [release_attempt, b1, h3, a1]
  · simp [release_attempt, b1]
    omega
  · simp [release_attempt, c3, h10, d3, a1]
  · simp [release_attempt, c1, q1, b1, d1]
  · simp [release_attempt, b4, q3, a4]
  · simp [release_attempt, c2, q2, b1, d2]
  · simp [release_attempt, c5, q5, d5]
  · simp [release_attempt, b7]
  · simp [release_attempt, b7]
  · simp [release_attempt, b7]
  · intro r hr
    simp only [release_attempt, log_swapper, create_swapper, release_swapper,
      set_swapper, log_trace, create_trace, release_trace, set_vk, log_next, create_next,
      release_next, log_live, create_live, release_live, b3, List.mem_filter, List.mem_append,
      List.mem_singleton, List.mem_cons, bne_iff_ne, ne_eq, Nat.add_eq_zero, one_ne_zero,
      and_false, not_false_eq_true, if_true, OfNat.ofNat_ne_zero, List.not_mem_nil,
      or_false] at hr
    obtain ⟨a, b⟩ := r
    simp only [Prod.mk.injEq] at hr
    simp only [ne_eq]
    have e2 : st.vk.next + 2 = st.vk.next + 1 + 1 := by omega
    have e3 : st.vk.next + 3 = st.vk.next + 1 + 2 := by omega
    have e4 : st.vk.next + 4 = st.vk.next + 1 + 3 := by omega
    rw [e2, e3, e4]
    tauto
  · intro r hr hk
    simp only [release_attempt, log_swapper, create_swapper, release_swapper,
      set_swapper, log_trace, create_trace, release_trace, set_vk, log_next, create_next,
      release_next, log_live, create_live, release_live, b3, List.mem_filter, List.mem_append,
      List.mem_singleton, List.mem_cons, bne_iff_ne, ne_eq, Nat.add_eq_zero, one_ne_zero,
      and_false, not_false_eq_true, if_true, OfNat.ofNat_ne_zero, List.not_mem_nil,
      or_false] at hr
    have hr5 : r ∈ st5.vk.live ∧ r.2 ≠ st.vk.next + 1 ∧ r.2 ≠ st.vk.next + 1 + 1 ∧
        r.2 ≠ st.vk.next + 1 + 2 ∧ r.2 ≠ st.vk.next + 1 + 3 := by
      obtain ⟨a, b⟩ := r
      simp only [Prod.mk.injEq] at hr
      simp only [ne_eq]
      tauto
    have h0 := h8 r hr5.1 hk
    simp only [log_live, create_live, release_live, set_vk, List.mem_filter, List.mem_append,
      List.mem_singleton, List.mem_cons, List.not_mem_nil, or_false, bne_iff_ne, ne_eq, log_next,
      fresh_eq, a3] at h0
    obtain ⟨a, b⟩ := r
    simp only [Prod.mk.injEq] at h0
    simp only [ne_eq] at hr5
    tauto
  · simp [release_attempt, b1, h7a]
  · simpa [a1] using hRc
  · simp only [Res.st, log_trace] at hR
    simp only [log_trace, create_trace, set_vk, count_log, count_create, count_set, count_release,
      reduceCtorEq, if_false, log_swapper, create_swapper, set_swapper, release_swapper,
      log_next, create_next, release_next, release_trace, hfm, a1] at t0 t2
    simp [release_attempt, t2, hR, t0, b1, h1, h2, a1, release_calls, List.append_assoc,
      Nat.add_assoc]

/-- C5 (witness): on the configured presenter, with a platform whose first
queue presentation is out of date, the hypotheses hold and frame 9 is
presented by the second attempt, after the calls of the first attempt, the
rebuild and the four releases. -/
theorem present_out_of_date_recovers_witness :
    helpers_succeed stale_present ∧ usage_supported stale_present ∧ rows_fit stale_present ∧
      stale_present.result .QueuePresentKHR (configured.count .QueuePresentKHR) =
        VK_ERROR_OUT_OF_DATE_KHR ∧
      ∃ (st' : St) (semaphore : Nat) (images : List GstVulkanImageMemory) (R : List Call)
          (cmd staging fence : Nat),
        _render_buffer_unlocked stale_present 2 configured 9 = .returned true none st' ∧
        st'.swapper.current_buffer = 9 ∧ live_sub st' configured ∧
        (∀ c ∈ R, c.api ∈ resize_apis) ∧
        st'.vk.trace = configured.vk.trace ++
          [⟨.vkCreateSemaphore, []⟩, ⟨.AcquireNextImageKHR, [3, 6]⟩] ++
          transfer_calls 9 ⟨5, 101, 44, 4, 4⟩ ⟨4, 4, 16, fun _ => 7⟩ ⟨12, 4, 4⟩ 7 8 ++
          [⟨.vkQueueSubmit, [2, 7, 9]⟩, ⟨.QueuePresentKHR, [2, 3, 1, 6]⟩] ++
          R ++
          release_calls 6 7 9 8 ++
          [⟨.vkCreateSemaphore, []⟩,
            ⟨.AcquireNextImageKHR, [st'.swapper.swap_chain, semaphore]⟩] ++
          transfer_calls 9 (images.getD 1 null_image) ⟨4, 4, 16, fun _ => 7⟩ ⟨12, 4, 4⟩
            cmd staging ++
          [⟨.vkQueueSubmit, [2, cmd, fence]⟩,
            ⟨.QueuePresentKHR, [2, st'.swapper.swap_chain, 1, semaphore]⟩,
            ⟨.vkWaitForFences, [fence]⟩] ++
          release_calls semaphore cmd fence staging := by
  have hu : usage_supported stale_present :=
    fun _ => (by decide : (18 : Nat) &&& 2 ≠ 0 ∧ (18 : Nat) &&& 16 ≠ 0)
  have hf : rows_fit stale_present := fun _ _ => (by decide : 4 * 16 ≤ 64)
  obtain ⟨st', semaphore, _, images, R, cmd, staging, fence, h, hb, _, _, _, _, _, _, _, _, _, _,
      hl, _, hR, _, ht⟩ :=
    present_out_of_date_recovers stale_present configured 9 0
      [⟨4, 100, 44, 4, 4⟩, ⟨5, 101, 44, 4, 4⟩] (by decide) rfl (by decide)
      stale_present_helpers hu hf (by decide) (by decide) rfl (by decide) (by decide)
      (by decide) (fun _ => (by decide : 1 < 2)) (by decide)
  exact ⟨stale_present_helpers, hu, hf, by decide, st', semaphore, images, R, cmd, staging,
    fence, h, hb, hl, hR, ht⟩

end VkSwapper
